import Mathlib

/-!
Verification of the ClawdGod agent lifecycle orchestration subsystem
(`src/orchestrator`).  The definitions below are a shallow embedding of the
orchestrator's TypeScript source:

* `agentPort`, `profileName`, `serviceName`, `stateDirOf` embed the pure
  placement helpers of `containers.ts` (the Host Placement Resolver);
* `Json` and `renderConfig` embed the in-place rewriting that `createAgent`
  performs on the parsed `config.json` payload;
* `M` is a writer/except monad recording the host commands, file writes and
  backend notifications each lifecycle operation performs, in order;
* `createAgent`, `stopAgent`, `restartAgent`, `deleteAgent` embed the
  lifecycle operations over an abstract executor environment `Env`
  (the `sshExec` / `sshWriteFile` transport of `ssh.ts`);
* `sshExecModel` embeds the promise-resolution structure of `sshExec`;
* `applyCmd` gives host-state semantics to the issued commands, used to
  reason about the on-host effect of `deleteAgent`.
-/

namespace Clawdgod

/-! ## JavaScript 32-bit hash and the Host Placement Resolver

`containers.ts`:

```js
function agentPort(agentId) {
    let hash = 0;
    for (const ch of agentId) hash = ((hash << 5) - hash + ch.charCodeAt(0)) | 0;
    return BASE_GATEWAY_PORT + (Math.abs(hash) % 1000);
}
```
-/

/-- Wrap an integer into the signed 32-bit range, as JavaScript's `| 0`
(ToInt32) does. -/
def to32 (n : Int) : Int := (n + 2 ^ 31) % 2 ^ 32 - 2 ^ 31

/-- The value `ch.charCodeAt(0)` returns for the string produced by the
string iterator at code point `c`: the code point itself below `0x10000`,
the leading surrogate for astral code points. -/
def jsCharCode (c : Char) : Nat :=
  if c.toNat < 65536 then c.toNat else 55296 + (c.toNat - 65536) / 1024

/-- One step of the hash loop: `((hash << 5) - hash + code) | 0`.
`hash << 5` itself truncates to 32 bits before the subtraction. -/
def hashStep (h : Int) (code : Nat) : Int := to32 (to32 (h * 32) - h + code)

/-- The accumulated hash of `agentId` (variable `hash` in `agentPort`). -/
def jsHash (s : String) : Int := s.foldl (fun h c => hashStep h (jsCharCode c)) 0

/-- `BASE_GATEWAY_PORT` in `containers.ts`. -/
def BASE_GATEWAY_PORT : Nat := 18800

/-- `agentPort` from `containers.ts`: base port plus `Math.abs(hash) % 1000`. -/
def agentPort (agentId : String) : Nat :=
  BASE_GATEWAY_PORT + (jsHash agentId).natAbs % 1000

/-- `profileName` from `containers.ts`. -/
def profileName (agentId : String) : String := "agent-" ++ agentId

/-- `serviceName` from `containers.ts`. -/
def serviceName (agentId : String) : String := "clawdgod-" ++ agentId

/-- The per-agent state directory `/root/.openclaw-${profile}` computed
inside `createAgent` and `deleteAgent`. -/
def stateDirOf (agentId : String) : String :=
  "/root/.openclaw-" ++ profileName agentId

/-- The per-agent workspace directory `${stateDir}/workspace`. -/
def workspaceDirOf (agentId : String) : String := stateDirOf agentId ++ "/workspace"

/-- The rendered config path `${stateDir}/openclaw.json`. -/
def configFileOf (agentId : String) : String := stateDirOf agentId ++ "/openclaw.json"

/-- The systemd unit file path `/etc/systemd/system/${service}.service`. -/
def unitFileOf (agentId : String) : String :=
  "/etc/systemd/system/" ++ serviceName agentId ++ ".service"

/-- JavaScript `String.prototype.trim` whitespace (the characters that
occur in the command outputs handled here). -/
def isJsWs (c : Char) : Bool := c == ' ' || c == '\t' || c == '\n' || c == '\r'

/-- JavaScript `s.trim()`: strip leading and trailing whitespace. -/
def jsTrim (s : String) : String :=
  ⟨((s.data.dropWhile isJsWs).reverse.dropWhile isJsWs).reverse⟩

/-! ## JSON values and JavaScript object semantics

`createAgent` parses `config.json` with `JSON.parse` and mutates the parsed
value in place with property reads, property assignments and `delete`,
then serializes it with `JSON.stringify`.  In JavaScript, arrays are
objects: a named (non-index) property can be read, assigned and deleted on
an array — the assignments succeed — but `JSON.stringify` serializes only
the index elements of an array and drops such named properties.  To embed
this, the `arr` constructor carries both the index elements and the named
properties the mutation phase may have attached (`JSON.parse` itself never
produces array properties, so parsed arrays have `props = []`); `written`
below models the serialization, dropping array properties.  Objects are
key/value lists in insertion order; `JSON.parse` output has unique keys.
The code reads and writes only non-index keys (`meta`, `agents`, …), so
array index/`length` interaction never arises. -/

inductive Json where
  | null : Json
  | bool (b : Bool) : Json
  | num (n : Int) : Json
  | str (s : String) : Json
  | arr (elems : List Json) (props : List (String × Json)) : Json
  | obj (fields : List (String × Json)) : Json

/-- Binding read: first binding for `k`. -/
def jget (o : List (String × Json)) (k : String) : Option Json :=
  match o with
  | [] => none
  | (k', v) :: rest => if k' == k then some v else jget rest k

/-- Binding assignment: replaces the first binding in place, or appends
when the key is absent (JavaScript insertion-order semantics). -/
def jset (o : List (String × Json)) (k : String) (v : Json) : List (String × Json) :=
  match o with
  | [] => [(k, v)]
  | (k', v') :: rest => if k' == k then (k, v) :: rest else (k', v') :: jset rest k v

/-- Binding removal: removes every binding for `k`. -/
def jdel (o : List (String × Json)) (k : String) : List (String × Json) :=
  match o with
  | [] => []
  | (k', v) :: rest => if k' == k then jdel rest k else (k', v) :: jdel rest k

/-- Number of bindings for `k` in `o`. -/
def countKey (o : List (String × Json)) (k : String) : Nat :=
  match o with
  | [] => 0
  | (k', _) :: rest => (if k' == k then 1 else 0) + countKey rest k

/-- JavaScript truthiness of a JSON value (`null`, `false`, `0` and `""`
are falsy; arrays and objects are truthy). -/
def jsTruthy : Json → Bool
  | .null => false
  | .bool b => b
  | .num n => n != 0
  | .str s => s != ""
  | .arr _ _ => true
  | .obj _ => true

/-- Property read `v[k]` for the named keys the code uses: objects and
arrays read their bindings; reading a property of `null` throws; a named
property of a boxed primitive is `undefined`. -/
def getProp : Json → String → Except String (Option Json)
  | .null, _ => .error "TypeError: cannot read properties of null"
  | .obj o, k => .ok (jget o k)
  | .arr _ p, k => .ok (jget p k)
  | _, _ => .ok none

/-- Property assignment `v[k] = x`: succeeds on objects and on arrays
(named properties of arrays are legal and survive until serialization);
on a primitive it throws a `TypeError` in strict mode. -/
def setProp : Json → String → Json → Except String Json
  | .obj o, k, v => .ok (.obj (jset o k v))
  | .arr l p, k, v => .ok (.arr l (jset p k v))
  | _, _, _ => .error "TypeError: cannot create property on a primitive"

/-- `delete v[k]`: removes the binding on objects and arrays; on `null` it
throws; on other primitives it is a no-op returning true. -/
def delProp : Json → String → Except String Json
  | .null, _ => .error "TypeError: cannot convert null to object"
  | .obj o, k => .ok (.obj (jdel o k))
  | .arr l p, k => .ok (.arr l (jdel p k))
  | v, _ => .ok v

/-- `x || {}`: a missing or falsy value becomes the empty object; any
truthy value — an object, an array, or a truthy primitive — is kept. -/
def orEmptyObj : Option Json → Json
  | none => .obj []
  | some v => if jsTruthy v then v else .obj []

/-- The loop body `for (const agent of config.agents.list)
agent.workspace = workspaceDir`, elementwise in order: object and array
elements accept the assignment (an array element keeps it only as a named
property); a primitive element throws. -/
def setWorkspaces (w : String) : List Json → Except String (List Json)
  | [] => .ok []
  | e :: rest =>
    match setProp e "workspace" (.str w) with
    | .error msg => .error msg
    | .ok e' =>
      match setWorkspaces w rest with
      | .error msg => .error msg
      | .ok rest' => .ok (e' :: rest')

/-- Lines 90–97 of `containers.ts`: the final value of `config.agents`
after

```js
config.agents = config.agents || {};
config.agents.defaults = config.agents.defaults || {};
config.agents.defaults.workspace = workspaceDir;
if (config.agents.list) {
    for (const agent of config.agents.list) agent.workspace = workspaceDir;
}
```

applied to `agents := config.agents || {}`.  A truthy non-array `list` is
not iterable (a truthy string would iterate characters and throw on the
first assignment), embedded as an error either way. -/
def rewriteAgents (workspaceDir : String) (agents : Json) : Except String Json := do
  let d0 ← getProp agents "defaults"
  let defaults := orEmptyObj d0
  let agents ← setProp agents "defaults" defaults
  let defaults ← setProp defaults "workspace" (.str workspaceDir)
  let agents ← setProp agents "defaults" defaults
  let l0 ← getProp agents "list"
  match l0 with
  | none => pure agents
  | some lv =>
    if jsTruthy lv then
      match lv with
      | .arr elems props => do
        let elems' ← setWorkspaces workspaceDir elems
        setProp agents "list" (.arr elems' props)
      | _ => throw "TypeError: config.agents.list is not iterable"
    else pure agents

/-- Lines 98–109 of `containers.ts`: the final value of `config.gateway`
after

```js
config.gateway.mode = "local";
config.gateway.bind = "lan";
config.gateway.port = port;
config.gateway.controlUi = config.gateway.controlUi || {};
config.gateway.controlUi.allowInsecureAuth = true;
config.gateway.controlUi.dangerouslyDisableDeviceAuth = true;
delete config.gateway.token;
delete config.gateway.auth;
config.gateway.auth = { mode: "token", token: request.agentId };
```

applied to `gateway := config.gateway || {}`. -/
def rewriteGateway (agentId : String) (port : Nat) (gateway : Json) :
    Except String Json := do
  let gateway ← setProp gateway "mode" (.str "local")
  let gateway ← setProp gateway "bind" (.str "lan")
  let gateway ← setProp gateway "port" (.num (Int.ofNat port))
  let cu0 ← getProp gateway "controlUi"
  let controlUi := orEmptyObj cu0
  let gateway ← setProp gateway "controlUi" controlUi
  let controlUi ← setProp controlUi "allowInsecureAuth" (.bool true)
  let controlUi ← setProp controlUi "dangerouslyDisableDeviceAuth" (.bool true)
  let gateway ← setProp gateway "controlUi" controlUi
  let gateway ← delProp gateway "token"
  let gateway ← delProp gateway "auth"
  setProp gateway "auth" (.obj [("mode", .str "token"), ("token", .str agentId)])

/-- The in-place rewriting `createAgent` applies to the parsed
`config.json` (lines 87–109 of `containers.ts`):

```js
const config = JSON.parse(file.content);
delete config.meta;
config.agents = config.agents || {};
// ... defaults/list mutations (rewriteAgents)
config.gateway = config.gateway || {};
// ... gateway mutations (rewriteGateway)
```

Each nested mutation is reflected by writing the final nested value back
to its key, which is equivalent to JavaScript's in-place mutation through
the alias.  Total over every parsed value: a primitive top level throws at
the first property assignment (`null` already at the `delete`), while an
array top level accepts everything as named properties. -/
def renderConfig (agentId : String) (port : Nat) (workspaceDir : String)
    (config : Json) : Except String Json := do
  let config ← delProp config "meta"
  let a0 ← getProp config "agents"
  let agents ← rewriteAgents workspaceDir (orEmptyObj a0)
  let config ← setProp config "agents" agents
  let g0 ← getProp config "gateway"
  let gateway ← rewriteGateway agentId port (orEmptyObj g0)
  setProp config "gateway" gateway

mutual

/-- `JSON.stringify`, at the level of the value actually serialized: the
index elements of an array are kept and its named properties dropped
(ECMA-262 SerializeJSONArray); object members are kept in order. -/
def written : Json → Json
  | .null => .null
  | .bool b => .bool b
  | .num n => .num n
  | .str s => .str s
  | .arr l _ => .arr (writtenList l) []
  | .obj o => .obj (writtenFields o)

/-- `written` on the elements of an array. -/
def writtenList : List Json → List Json
  | [] => []
  | x :: xs => written x :: writtenList xs

/-- `written` on the members of an object. -/
def writtenFields : List (String × Json) → List (String × Json)
  | [] => []
  | (k, v) :: rest => (k, written v) :: writtenFields rest

end

/-! ## Lifecycle operations

Each operation of `containers.ts` is embedded as a computation in a
writer/except monad `M`: it returns either a value or the raised error
message, together with the ordered trace of host commands issued, host
files written, and backend notifications attempted. -/

/-- Result of a completed remote command (`sshExec` resolution value). -/
structure ExecResult where
  stdout : String
  stderr : String
  exitCode : Int
deriving DecidableEq, Repr

/-- The host commands `containers.ts` issues, as structured data.
`Cmd.render` below gives the exact shell string each constructor stands
for. -/
inductive Cmd where
  | mkdirP (dir : String)
  | daemonReload
  | enable (svc : String)
  | start (svc : String)
  | restart (svc : String)
  | isActive (svc : String)
  | journal (svc : String) (n : Nat)
  | stopTolerant (svc : String)
  | disableTolerant (svc : String)
  | rmF (path : String)
  | rmRf (path : String)
deriving DecidableEq, Repr

/-- The exact command strings built in `containers.ts`. -/
def Cmd.render : Cmd → String
  | .mkdirP dir => "mkdir -p " ++ dir
  | .daemonReload => "systemctl daemon-reload"
  | .enable svc => "systemctl enable " ++ svc
  | .start svc => "systemctl start " ++ svc
  | .restart svc => "systemctl restart " ++ svc
  | .isActive svc => "systemctl is-active " ++ svc
  | .journal svc n => "journalctl -u " ++ svc ++ " --no-pager -n " ++ toString n ++ " 2>&1"
  | .stopTolerant svc => "systemctl stop " ++ svc ++ " 2>/dev/null || true"
  | .disableTolerant svc => "systemctl disable " ++ svc ++ " 2>/dev/null || true"
  | .rmF path => "rm -f " ++ path
  | .rmRf path => "rm -rf " ++ path

/-- One observable step of a lifecycle operation: a host command attempt
(`sshExec`), a host file write (`sshWriteFile`), the write of the rendered
JSON config (the code serializes it with `JSON.stringify(config, null, 2)`;
the JSON value is recorded here in place of its textual serialization), or
a status notification POST attempt (`notifyBackend`). -/
inductive Event where
  | exec (c : Cmd)
  | write (path content : String)
  | writeJson (path : String) (j : Json)
  | notify (agentId status : String) (extra : List (String × String))

/-- Abstract transport environment: how the host answers each command and
file write.  `.error` models a rejected promise (connection,
authentication or exec-setup failure of `ssh2`); `.ok` models a completed
command, even one with a nonzero exit code. -/
structure Env where
  exec : Cmd → Except String ExecResult
  writeFile : String → String → Except String Unit
  writeJson : String → Json → Except String Unit

/-- The lifecycle monad: a result (or raised error) plus the trace of
events emitted before returning or raising. -/
def M (α : Type) : Type := Except String α × List Event

def M.pure {α : Type} (a : α) : M α := (.ok a, [])

def M.bind {α β : Type} (x : M α) (f : α → M β) : M β :=
  match x with
  | (.error e, w) => (.error e, w)
  | (.ok a, w) =>
    let y := f a
    (y.1, w ++ y.2)

instance : Monad M where
  pure := M.pure
  bind := M.bind

/-- Raise an error (a thrown exception in the source). -/
def throwM {α : Type} (msg : String) : M α := (.error msg, [])

/-- `await sshExec(ssh, cmd)`: records the attempt and propagates a
transport rejection. -/
def sshExecM (env : Env) (c : Cmd) : M ExecResult :=
  match env.exec c with
  | .ok r => (.ok r, [.exec c])
  | .error e => (.error e, [.exec c])

/-- `await sshWriteFile(ssh, path, content)`. -/
def sshWriteFileM (env : Env) (path content : String) : M Unit :=
  match env.writeFile path content with
  | .ok _ => (.ok (), [.write path content])
  | .error e => (.error e, [.write path content])

/-- `await sshWriteFile(ssh, configFile, JSON.stringify(config, null, 2))`. -/
def writeJsonM (env : Env) (path : String) (j : Json) : M Unit :=
  match env.writeJson path j with
  | .ok _ => (.ok (), [.writeJson path j])
  | .error e => (.error e, [.writeJson path j])

/-- `await notifyBackend(agentId, status, extra?)`: `notifyBackend` catches
its own `fetch` failure and never throws, so the attempt always succeeds
from the caller's point of view. -/
def notifyM (agentId status : String) (extra : List (String × String)) : M Unit :=
  (.ok (), [.notify agentId status extra])

/-- `{path, content}` entry of `ContainerCreateRequest.files`. -/
structure FileEntry where
  path : String
  content : String

/-- `ContainerCreateRequest` from `shared/src/types.ts` (records embedded
as ordered key/value lists). -/
structure ContainerCreateRequest where
  agentId : String
  userId : String
  openclawVersion : String
  envVars : List (String × String)
  files : List FileEntry
  channels : List String
  enableWhatsappSidecar : Bool

/-- The systemd service unit text rendered by `createAgent` (step 4). -/
def serviceUnitText (agentId stateDir configFile service : String) : String :=
  "[Unit]\nDescription=ClawdGod Agent " ++ agentId ++
  "\nAfter=network.target\n\n[Service]\nType=simple\nEnvironmentFile=" ++
  stateDir ++ "/.env\nEnvironment=OPENCLAW_STATE_DIR=" ++ stateDir ++
  "\nEnvironment=OPENCLAW_CONFIG_PATH=" ++ configFile ++
  "\nEnvironment=NODE_ENV=production\nExecStart=/usr/bin/openclaw gateway\n" ++
  "Restart=always\nRestartSec=5\nStandardOutput=journal\nStandardError=journal\n" ++
  "SyslogIdentifier=" ++ service ++ "\n\n[Install]\nWantedBy=multi-user.target\n"

/-- Step 2 of `createAgent`: the `for (const file of request.files)` loop.
`config.json` is parsed (`parse` stands for the external `JSON.parse`),
rewritten by `renderConfig` and written to the state-dir root; every other
file is written verbatim into the workspace directory. -/
def writeRequestFiles (env : Env) (parse : String → Except String Json)
    (agentId : String) (port : Nat) (workspaceDir configFile : String) :
    List FileEntry → M Unit
  | [] => Pure.pure ()
  | file :: rest => do
    if file.path == "config.json" then
      match parse file.content with
      | .error e => throwM e
      | .ok config =>
        match renderConfig agentId port workspaceDir config with
        | .error e => throwM e
        | .ok rendered => writeJsonM env configFile (written rendered)
    else
      sshWriteFileM env (workspaceDir ++ "/" ++ file.path) file.content
    writeRequestFiles env parse agentId port workspaceDir configFile rest

/-- The `KEY=VALUE` env-file body of step 3. -/
def envFileText (envVars : List (String × String)) : String :=
  String.intercalate "\n" (envVars.map (fun kv => kv.1 ++ "=" ++ kv.2))

/-- `createAgent(ssh, request)` from `containers.ts`.  The fixed
3-second settle sleep before the `is-active` query has no observable
effect in this embedding and is not represented. -/
def createAgent (env : Env) (parse : String → Except String Json)
    (sshHost : String) (req : ContainerCreateRequest) : M String := do
  let profile := profileName req.agentId
  let port := agentPort req.agentId
  let service := serviceName req.agentId
  let stateDir := "/root/.openclaw-" ++ profile
  let workspaceDir := stateDir ++ "/workspace"
  let configFile := stateDir ++ "/openclaw.json"
  let _ ← sshExecM env (.mkdirP workspaceDir)
  writeRequestFiles env parse req.agentId port workspaceDir configFile req.files
  sshWriteFileM env (stateDir ++ "/.env") (envFileText req.envVars)
  sshWriteFileM env ("/etc/systemd/system/" ++ service ++ ".service")
    (serviceUnitText req.agentId stateDir configFile service)
  let _ ← sshExecM env .daemonReload
  let _ ← sshExecM env (.enable service)
  let startResult ← sshExecM env (.start service)
  if startResult.exitCode != 0 then
    notifyM req.agentId "offline" []
    throwM ("Agent start failed: " ++ startResult.stderr)
  else
    let statusResult ← sshExecM env (.isActive service)
    let isRunning := jsTrim statusResult.stdout == "active"
    if !isRunning then
      let logs ← sshExecM env (.journal service 20)
      notifyM req.agentId "offline" []
      throwM ("Agent not running after start. Logs:\n" ++
        logs.stdout ++ "\n" ++ logs.stderr)
    else
      notifyM req.agentId "active"
        [("containerId", sshHost ++ ":" ++ toString port),
         ("gatewayPort", toString port),
         ("gatewayUrl", "http://" ++ sshHost ++ ":" ++ toString port)]
      Pure.pure (sshHost ++ ":" ++ toString port)

/-- `stopAgent(ssh, agentId)` from `containers.ts`. -/
def stopAgent (env : Env) (agentId : String) : M Unit := do
  let service := serviceName agentId
  let _ ← sshExecM env (.stopTolerant service)
  notifyM agentId "stopped" []

/-- `restartAgent(ssh, agentId)` from `containers.ts` (again, the settle
sleep is unobservable and not represented). -/
def restartAgent (env : Env) (agentId : String) : M Unit := do
  let service := serviceName agentId
  notifyM agentId "restarting" []
  let _ ← sshExecM env (.restart service)
  let statusResult ← sshExecM env (.isActive service)
  let isRunning := jsTrim statusResult.stdout == "active"
  notifyM agentId (if isRunning then "active" else "offline") []

/-- `deleteAgent(ssh, agentId)` from `containers.ts`. -/
def deleteAgent (env : Env) (agentId : String) : M Unit := do
  let service := serviceName agentId
  let profile := profileName agentId
  let stateDir := "/root/.openclaw-" ++ profile
  let _ ← sshExecM env (.stopTolerant service)
  let _ ← sshExecM env (.disableTolerant service)
  let _ ← sshExecM env (.rmF ("/etc/systemd/system/" ++ service ++ ".service"))
  let _ ← sshExecM env .daemonReload
  let _ ← sshExecM env (.rmRf stateDir)

/-- The notifications attempted during a trace, as `(agentId, status)`
pairs in order. -/
def notifOf : Event → Option (String × String)
  | .notify a s _ => some (a, s)
  | _ => none

/-- All `(agentId, status)` notification pairs of a trace, in order. -/
def notifs (tr : List Event) : List (String × String) := tr.filterMap notifOf

end Clawdgod

namespace Clawdgod

theorem jget_jset_self (o : List (String × Json)) (k : String) (v : Json) :
    jget (jset o k v) k = some v := by
  induction o with
  | nil => simp [jget, jset]
  | cons p rest ih =>
    obtain ⟨k', v'⟩ := p
    by_cases h : k' = k
    · simp [jset, jget, h]
    · simp [jset, jget, h, ih]

theorem jget_jset_ne (o : List (String × Json)) (k k' : String) (v : Json)
    (h : k' ≠ k) : jget (jset o k v) k' = jget o k' := by
  induction o with
  | nil => simp [jget, jset, Ne.symm h]
  | cons p rest ih =>
    obtain ⟨k0, v0⟩ := p
    by_cases h0 : k0 = k
    · subst h0
      simp [jset, jget, Ne.symm h]
    · by_cases h1 : k0 = k'
      · subst h1
        simp [jset, jget, h0]
      · simp [jset, jget, h0, h1, ih]

theorem jget_jdel_ne (o : List (String × Json)) (k k' : String)
    (h : k' ≠ k) : jget (jdel o k) k' = jget o k' := by
  induction o with
  | nil => simp [jget, jdel]
  | cons p rest ih =>
    obtain ⟨k0, v0⟩ := p
    by_cases h0 : k0 = k
    · subst h0
      simp [jdel, jget, Ne.symm h, ih]
    · by_cases h1 : k0 = k'
      · subst h1
        simp [jdel, jget, h0]
      · simp [jdel, jget, h0, h1, ih]

theorem countKey_jdel_self (o : List (String × Json)) (k : String) :
    countKey (jdel o k) k = 0 := by
  induction o with
  | nil => simp [countKey, jdel]
  | cons p rest ih =>
    obtain ⟨k0, v0⟩ := p
    by_cases h0 : k0 = k
    · simp [jdel, countKey, h0, ih]
    · simp [jdel, countKey, h0, ih]

theorem countKey_jdel_ne (o : List (String × Json)) (k k' : String)
    (h : k' ≠ k) : countKey (jdel o k) k' = countKey o k' := by
  induction o with
  | nil => simp [countKey, jdel]
  | cons p rest ih =>
    obtain ⟨k0, v0⟩ := p
    by_cases h0 : k0 = k
    · subst h0
      simp [jdel, countKey, Ne.symm h, ih]
    · simp [jdel, countKey, h0, ih]

theorem countKey_jset_ne (o : List (String × Json)) (k k' : String) (v : Json)
    (h : k' ≠ k) : countKey (jset o k v) k' = countKey o k' := by
  induction o with
  | nil => simp [countKey, jset, Ne.symm h]
  | cons p rest ih =>
    obtain ⟨k0, v0⟩ := p
    by_cases h0 : k0 = k
    · subst h0
      simp [jset, countKey, Ne.symm h]
    · simp [jset, countKey, h0, ih]

theorem countKey_jset_of_zero (o : List (String × Json)) (k : String) (v : Json)
    (h : countKey o k = 0) : countKey (jset o k v) k = 1 := by
  induction o with
  | nil => simp [countKey, jset]
  | cons p rest ih =>
    obtain ⟨k0, v0⟩ := p
    by_cases h0 : k0 = k
    · simp [countKey, h0] at h
    · simp [countKey, h0] at h
      simp [jset, countKey, h0, ih h]

@[simp] theorem ebind_ok {α β : Type} (a : α) (f : α → Except String β) :
    (Except.ok a : Except String α) >>= f = f a := rfl

@[simp] theorem ebind_error {α β : Type} (e : String) (f : α → Except String β) :
    (Except.error e : Except String α) >>= f = Except.error e := rfl

@[simp] theorem epure_eq {α : Type} (a : α) :
    (pure a : Except String α) = Except.ok a := rfl

theorem writtenList_eq_map (l : List Json) : writtenList l = l.map written := by
  induction l with
  | nil => simp [writtenList]
  | cons x xs ih => simp [writtenList, ih]

theorem jget_writtenFields (o : List (String × Json)) (k : String) :
    jget (writtenFields o) k = (jget o k).map written := by
  induction o with
  | nil => simp [writtenFields, jget]
  | cons p rest ih =>
    obtain ⟨k0, v0⟩ := p
    by_cases h0 : k0 = k
    · simp [writtenFields, jget, h0]
    · simp [writtenFields, jget, h0, ih]

theorem countKey_writtenFields (o : List (String × Json)) (k : String) :
    countKey (writtenFields o) k = countKey o k := by
  induction o with
  | nil => simp [writtenFields, countKey]
  | cons p rest ih =>
    obtain ⟨k0, v0⟩ := p
    simp [writtenFields, countKey, ih]

theorem written_eq_obj_inv (v : Json) (g : List (String × Json))
    (h : written v = .obj g) : ∃ o0, v = .obj o0 ∧ writtenFields o0 = g := by
  cases v with
  | obj o0 =>
    simp only [written] at h
    injection h with h'
    exact ⟨o0, rfl, h'⟩
  | null => exact Json.noConfusion h
  | bool b => exact Json.noConfusion h
  | num n => exact Json.noConfusion h
  | str s => exact Json.noConfusion h
  | arr l p => exact Json.noConfusion h

theorem written_eq_arr_inv (v : Json) (l : List Json) (ps : List (String × Json))
    (h : written v = .arr l ps) : ∃ l0 p0, v = .arr l0 p0 ∧ writtenList l0 = l := by
  cases v with
  | arr l0 p0 =>
    simp only [written] at h
    injection h with h1 h2
    exact ⟨l0, p0, rfl, h1⟩
  | null => exact Json.noConfusion h
  | bool b => exact Json.noConfusion h
  | num n => exact Json.noConfusion h
  | str s => exact Json.noConfusion h
  | obj o => exact Json.noConfusion h

/-- Every object element of a list processed by the `for-of` loop body has
its `workspace` overwritten (array elements keep the assignment only as a
named property and are not objects; primitives make the loop throw). -/
theorem setWorkspaces_mem_obj (w : String) (l l' : List Json)
    (h : setWorkspaces w l = .ok l') :
    ∀ e ∈ l', ∀ eo, e = .obj eo → jget eo "workspace" = some (.str w) := by
  induction l generalizing l' with
  | nil =>
    simp [setWorkspaces] at h
    subst h
    simp
  | cons e rest ih =>
    simp only [setWorkspaces] at h
    cases hsp : setProp e "workspace" (.str w) with
    | error m => rw [hsp] at h; exact Except.noConfusion h
    | ok e' =>
      rw [hsp] at h
      cases hrec : setWorkspaces w rest with
      | error m => rw [hrec] at h; exact Except.noConfusion h
      | ok rest' =>
        rw [hrec] at h
        cases h
        intro x hx eo hxo
        rcases List.mem_cons.mp hx with hx1 | hx2
        · subst hx1
          cases e with
          | obj ao =>
            simp only [setProp] at hsp
            injection hsp with hsp'
            subst hsp'
            injection hxo with hxo'
            subst hxo'
            exact jget_jset_self _ _ _
          | arr l0 p0 =>
            simp only [setProp] at hsp
            injection hsp with hsp'
            subst hsp'
            exact Json.noConfusion hxo
          | null => exact Except.noConfusion hsp
          | bool b => exact Except.noConfusion hsp
          | num n => exact Except.noConfusion hsp
          | str st => exact Except.noConfusion hsp
        · exact ih rest' hrec x hx2 eo hxo

theorem setProp_ok_inv {v : Json} {k : String} {x v' : Json}
    (h : setProp v k x = .ok v') :
    (∃ o, v = .obj o ∧ v' = .obj (jset o k x)) ∨
    (∃ l p, v = .arr l p ∧ v' = .arr l (jset p k x)) := by
  cases v with
  | obj o =>
    simp only [setProp] at h
    injection h with h'
    exact Or.inl ⟨o, rfl, h'.symm⟩
  | arr l p =>
    simp only [setProp] at h
    injection h with h'
    exact Or.inr ⟨l, p, rfl, h'.symm⟩
  | null => exact Except.noConfusion h
  | bool b => exact Except.noConfusion h
  | num n => exact Except.noConfusion h
  | str st => exact Except.noConfusion h

/-- Proof-side tail of `rewriteGateway`: the computation from the
`controlUi` read on, over the gateway value `gw` (already carrying
`mode`/`bind`/`port`) and `controlUi0 = gw.controlUi || {}`.  For any
input, `rewriteGateway agentId port v` whose first three assignments
succeed is definitionally `gwTail agentId gw controlUi0`. -/
def gwTail (agentId : String) (gw : Json) (controlUi0 : Json) :
    Except String Json := do
  let gateway ← setProp gw "controlUi" controlUi0
  let controlUi ← setProp controlUi0 "allowInsecureAuth" (.bool true)
  let controlUi ← setProp controlUi "dangerouslyDisableDeviceAuth" (.bool true)
  let gateway ← setProp gateway "controlUi" controlUi
  let gateway ← delProp gateway "token"
  let gateway ← delProp gateway "auth"
  setProp gateway "auth" (.obj [("mode", .str "token"), ("token", .str agentId)])

theorem gwTail_obj_inv (agentId : String) (g3 : List (String × Json))
    (controlUi0 : Json) (out : Json)
    (h : gwTail agentId (.obj g3) controlUi0 = .ok out) :
    ∃ g', out = .obj g' ∧
      countKey g' "token" = 0 ∧
      countKey g' "auth" = 1 ∧
      jget g' "auth" = some (.obj [("mode", .str "token"), ("token", .str agentId)]) ∧
      (∀ k, k ≠ "controlUi" → k ≠ "token" → k ≠ "auth" → jget g' k = jget g3 k) ∧
      (∀ cu, jget g' "controlUi" = some (.obj cu) →
        jget cu "allowInsecureAuth" = some (.bool true) ∧
        jget cu "dangerouslyDisableDeviceAuth" = some (.bool true)) := by
  cases controlUi0 with
  | obj c =>
    simp only [gwTail, setProp, delProp, ebind_ok] at h
    injection h with h'
    subst h'
    refine ⟨_, rfl, ?_, ?_, jget_jset_self _ _ _, ?_, ?_⟩
    · rw [countKey_jset_ne _ _ _ _ (by decide),
        countKey_jdel_ne _ _ _ (by decide)]
      exact countKey_jdel_self _ _
    · refine countKey_jset_of_zero _ _ _ ?_
      exact countKey_jdel_self _ _
    · intro k hk1 hk2 hk3
      rw [jget_jset_ne _ _ _ _ hk3, jget_jdel_ne _ _ _ hk3,
        jget_jdel_ne _ _ _ hk2, jget_jset_ne _ _ _ _ hk1,
        jget_jset_ne _ _ _ _ hk1]
    · intro cu hcu
      rw [jget_jset_ne _ _ _ _ (by decide), jget_jdel_ne _ _ _ (by decide),
        jget_jdel_ne _ _ _ (by decide), jget_jset_self] at hcu
      injection hcu with hcu'
      injection hcu' with hcu2
      subst hcu2
      constructor
      · rw [jget_jset_ne _ _ _ _ (by decide)]
        exact jget_jset_self _ _ _
      · exact jget_jset_self _ _ _
  | arr cl cp =>
    simp only [gwTail, setProp, delProp, ebind_ok] at h
    injection h with h'
    subst h'
    refine ⟨_, rfl, ?_, ?_, jget_jset_self _ _ _, ?_, ?_⟩
    · rw [countKey_jset_ne _ _ _ _ (by decide),
        countKey_jdel_ne _ _ _ (by decide)]
      exact countKey_jdel_self _ _
    · refine countKey_jset_of_zero _ _ _ ?_
      exact countKey_jdel_self _ _
    · intro k hk1 hk2 hk3
      rw [jget_jset_ne _ _ _ _ hk3, jget_jdel_ne _ _ _ hk3,
        jget_jdel_ne _ _ _ hk2, jget_jset_ne _ _ _ _ hk1,
        jget_jset_ne _ _ _ _ hk1]
    · intro cu hcu
      rw [jget_jset_ne _ _ _ _ (by decide), jget_jdel_ne _ _ _ (by decide),
        jget_jdel_ne _ _ _ (by decide), jget_jset_self] at hcu
      exact absurd hcu (by simp)
  | null => exact Except.noConfusion h
  | bool b => exact Except.noConfusion h
  | num n => exact Except.noConfusion h
  | str st => exact Except.noConfusion h

theorem gwTail_arr_shape (agentId : String) (l : List Json)
    (p : List (String × Json)) (controlUi0 : Json) (out : Json)
    (h : gwTail agentId (.arr l p) controlUi0 = .ok out) :
    ∃ p', out = .arr l p' := by
  cases controlUi0 with
  | obj c =>
    simp only [gwTail, setProp, delProp, ebind_ok] at h
    injection h with h'
    exact ⟨_, h'.symm⟩
  | arr cl cp =>
    simp only [gwTail, setProp, delProp, ebind_ok] at h
    injection h with h'
    exact ⟨_, h'.symm⟩
  | null => exact Except.noConfusion h
  | bool b => exact Except.noConfusion h
  | num n => exact Except.noConfusion h
  | str st => exact Except.noConfusion h

theorem rewriteGateway_ok_obj (agentId : String) (port : Nat) (v : Json)
    (g' : List (String × Json))
    (h : rewriteGateway agentId port v = .ok (.obj g')) :
    countKey g' "token" = 0 ∧
    countKey g' "auth" = 1 ∧
    jget g' "auth" = some (.obj [("mode", .str "token"), ("token", .str agentId)]) ∧
    jget g' "port" = some (.num (Int.ofNat port)) ∧
    (∀ cu, jget g' "controlUi" = some (.obj cu) →
      jget cu "allowInsecureAuth" = some (.bool true) ∧
      jget cu "dangerouslyDisableDeviceAuth" = some (.bool true)) := by
  cases v with
  | obj g =>
    have h' : gwTail agentId
        (.obj (jset (jset (jset g "mode" (.str "local")) "bind" (.str "lan"))
          "port" (.num (Int.ofNat port))))
        (orEmptyObj (jget (jset (jset (jset g "mode" (.str "local")) "bind" (.str "lan"))
          "port" (.num (Int.ofNat port))) "controlUi")) = .ok (.obj g') := h
    obtain ⟨g'', hout, htok, hauth1, hauth2, hkeys, hcu⟩ :=
      gwTail_obj_inv agentId _ _ _ h'
    injection hout with hout'
    subst hout'
    refine ⟨htok, hauth1, hauth2, ?_, hcu⟩
    rw [hkeys "port" (by decide) (by decide) (by decide)]
    exact jget_jset_self _ _ _
  | arr l p =>
    have h' : gwTail agentId
        (.arr l (jset (jset (jset p "mode" (.str "local")) "bind" (.str "lan"))
          "port" (.num (Int.ofNat port))))
        (orEmptyObj (jget (jset (jset (jset p "mode" (.str "local")) "bind" (.str "lan"))
          "port" (.num (Int.ofNat port))) "controlUi")) = .ok (.obj g') := h
    obtain ⟨p', hout⟩ := gwTail_arr_shape agentId _ _ _ _ h'
    exact Json.noConfusion hout
  | null => exact Except.noConfusion h
  | bool b => exact Except.noConfusion h
  | num n => exact Except.noConfusion h
  | str st => exact Except.noConfusion h

/-- Proof-side tail of `rewriteAgents`: the computation from the
`workspace` assignment on, over the agents value `agents1` (already
carrying the `defaults` binding) and `defaults0 = agents.defaults || {}`. -/
def agTail (w : String) (agents1 defaults0 : Json) : Except String Json := do
  let defaults ← setProp defaults0 "workspace" (.str w)
  let agents ← setProp agents1 "defaults" defaults
  let l0 ← getProp agents "list"
  match l0 with
  | none => pure agents
  | some lv =>
    if jsTruthy lv then
      match lv with
      | .arr elems props => do
        let elems2 ← setWorkspaces w elems
        setProp agents "list" (.arr elems2 props)
      | _ => throw "TypeError: config.agents.list is not iterable"
    else pure agents

theorem agTail_obj_inv (w : String) (ag1 : List (String × Json))
    (defaults0 : Json) (out : Json)
    (h : agTail w (.obj ag1) defaults0 = .ok out) :
    ∃ ag', out = .obj ag' ∧
      (∀ df, jget ag' "defaults" = some (.obj df) →
        jget df "workspace" = some (.str w)) ∧
      (∀ l ps, jget ag' "list" = some (.arr l ps) →
        ∀ e ∈ l, ∀ eo, e = .obj eo → jget eo "workspace" = some (.str w)) := by
  simp only [agTail] at h
  cases hd : setProp defaults0 "workspace" (.str w) with
  | error m =>
    rw [hd] at h
    exact Except.noConfusion h
  | ok d' =>
    rw [hd] at h
    have hdef : ∀ df, d' = Json.obj df → jget df "workspace" = some (.str w) := by
      intro df hdf
      subst hdf
      rcases setProp_ok_inv hd with ⟨o0, _, hset⟩ | ⟨l0, p0, _, hset⟩
      · injection hset with hset'
        rw [hset']
        exact jget_jset_self _ _ _
      · exact Json.noConfusion hset
    simp only [ebind_ok, setProp, getProp] at h
    split at h
    · rename_i hl0
      simp only [epure_eq] at h
      injection h with h'
      subst h'
      refine ⟨_, rfl, ?_, ?_⟩
      · intro df hdf
        rw [jget_jset_self] at hdf
        injection hdf with hdf'
        exact hdef df hdf'
      · intro l ps hl
        rw [hl] at hl0
        exact Option.noConfusion hl0
    · rename_i lv hl0
      split at h
      · rename_i htr
        split at h
        · rename_i elems props
          cases hsw : setWorkspaces w elems with
          | error m => rw [hsw] at h; exact Except.noConfusion h
          | ok elems2 =>
            rw [hsw] at h
            simp only [ebind_ok, setProp] at h
            injection h with h'
            subst h'
            refine ⟨_, rfl, ?_, ?_⟩
            · intro df hdf
              rw [jget_jset_ne _ _ _ _ (by decide), jget_jset_self] at hdf
              injection hdf with hdf'
              exact hdef df hdf'
            · intro l ps hl
              rw [jget_jset_self] at hl
              injection hl with hl'
              injection hl' with hl1 hl2
              subst hl1
              exact setWorkspaces_mem_obj w elems _ hsw
        · exact Except.noConfusion h
      · rename_i htr
        simp only [epure_eq] at h
        injection h with h'
        subst h'
        refine ⟨_, rfl, ?_, ?_⟩
        · intro df hdf
          rw [jget_jset_self] at hdf
          injection hdf with hdf'
          exact hdef df hdf'
        · intro l ps hl
          rw [hl] at hl0
          injection hl0 with hl0'
          subst hl0'
          simp [jsTruthy] at htr

theorem agTail_arr_shape (w : String) (l : List Json) (p : List (String × Json))
    (defaults0 : Json) (out : Json)
    (h : agTail w (.arr l p) defaults0 = .ok out) :
    ∃ p', out = .arr l p' := by
  simp only [agTail] at h
  cases hd : setProp defaults0 "workspace" (.str w) with
  | error m =>
    rw [hd] at h
    exact Except.noConfusion h
  | ok d' =>
    rw [hd] at h
    simp only [ebind_ok, setProp, getProp] at h
    split at h
    · simp only [epure_eq] at h
      injection h with h'
      exact ⟨_, h'.symm⟩
    · rename_i lv hl0
      split at h
      · rename_i htr
        split at h
        · rename_i elems props
          cases hsw : setWorkspaces w elems with
          | error m => rw [hsw] at h; exact Except.noConfusion h
          | ok elems2 =>
            rw [hsw] at h
            simp only [ebind_ok, setProp] at h
            injection h with h'
            exact ⟨_, h'.symm⟩
        · exact Except.noConfusion h
      · rename_i htr
        simp only [epure_eq] at h
        injection h with h'
        exact ⟨_, h'.symm⟩

theorem rewriteAgents_ok_obj (w : String) (v : Json) (ag' : List (String × Json))
    (h : rewriteAgents w v = .ok (.obj ag')) :
    (∀ df, jget ag' "defaults" = some (.obj df) →
      jget df "workspace" = some (.str w)) ∧
    (∀ l ps, jget ag' "list" = some (.arr l ps) →
      ∀ e ∈ l, ∀ eo, e = .obj eo → jget eo "workspace" = some (.str w)) := by
  cases v with
  | obj ag =>
    have h' : agTail w
        (.obj (jset ag "defaults" (orEmptyObj (jget ag "defaults"))))
        (orEmptyObj (jget ag "defaults")) = .ok (.obj ag') := h
    obtain ⟨ag'', hout, hdf, hls⟩ := agTail_obj_inv w _ _ _ h'
    injection hout with hout'
    subst hout'
    exact ⟨hdf, hls⟩
  | arr l p =>
    have h' : agTail w
        (.arr l (jset p "defaults" (orEmptyObj (jget p "defaults"))))
        (orEmptyObj (jget p "defaults")) = .ok (.obj ag') := h
    obtain ⟨p', hout⟩ := agTail_arr_shape w _ _ _ _ h'
    exact Json.noConfusion hout
  | null => exact Except.noConfusion h
  | bool b => exact Except.noConfusion h
  | num n => exact Except.noConfusion h
  | str st => exact Except.noConfusion h

theorem renderConfig_obj_inv (aid : String) (port : Nat) (w : String)
    (o : List (String × Json)) (out : Json)
    (h : renderConfig aid port w (.obj o) = .ok out) :
    ∃ agents gateway,
      rewriteAgents w (orEmptyObj (jget (jdel o "meta") "agents")) = .ok agents ∧
      rewriteGateway aid port
        (orEmptyObj (jget (jset (jdel o "meta") "agents" agents) "gateway")) = .ok gateway ∧
      out = .obj (jset (jset (jdel o "meta") "agents" agents) "gateway" gateway) := by
  simp only [renderConfig, delProp, getProp, ebind_ok] at h
  cases hA : rewriteAgents w (orEmptyObj (jget (jdel o "meta") "agents")) with
  | error e =>
    rw [hA] at h
    exact Except.noConfusion h
  | ok agents =>
    rw [hA] at h
    simp only [ebind_ok, setProp, getProp] at h
    cases hG : rewriteGateway aid port
        (orEmptyObj (jget (jset (jdel o "meta") "agents" agents) "gateway")) with
    | error e =>
      rw [hG] at h
      exact Except.noConfusion h
    | ok gateway =>
      rw [hG] at h
      simp only [ebind_ok, setProp] at h
      injection h with h'
      exact ⟨agents, gateway, rfl, hG, h'.symm⟩

/-- Master characterization of the config actually written to the host:
for every input object, the serialized (`written`) render result is an
object, and at every position where the written value is itself a JSON
object — which is the case exactly when the corresponding input field was
an object, absent or falsy — the rewriting's guarantees hold.  Positions
where the input held an array survive as bare arrays whose injected
properties `JSON.stringify` drops, so the conclusions deliberately hold
only conditionally on the written value being an object. -/
theorem renderConfig_written_inv (aid : String) (port : Nat) (w : String)
    (o : List (String × Json)) (out : Json)
    (h : renderConfig aid port w (.obj o) = .ok out) :
    ∃ top, written out = .obj top ∧
      (∀ g, jget top "gateway" = some (.obj g) →
        countKey g "token" = 0 ∧
        countKey g "auth" = 1 ∧
        jget g "auth" = some (.obj [("mode", .str "token"), ("token", .str aid)]) ∧
        jget g "port" = some (.num (Int.ofNat port)) ∧
        (∀ cu, jget g "controlUi" = some (.obj cu) →
          jget cu "allowInsecureAuth" = some (.bool true) ∧
          jget cu "dangerouslyDisableDeviceAuth" = some (.bool true))) ∧
      (∀ ag, jget top "agents" = some (.obj ag) →
        (∀ df, jget ag "defaults" = some (.obj df) →
          jget df "workspace" = some (.str w)) ∧
        (∀ l ps, jget ag "list" = some (.arr l ps) →
          ∀ e ∈ l, ∀ eo, e = .obj eo → jget eo "workspace" = some (.str w))) := by
  obtain ⟨agents, gateway, hA, hG, rfl⟩ := renderConfig_obj_inv aid port w o out h
  refine ⟨_, rfl, ?_, ?_⟩
  · intro g hg
    rw [jget_writtenFields, jget_jset_self] at hg
    injection hg with hg'
    obtain ⟨g0, rfl, hwf⟩ := written_eq_obj_inv gateway g hg'
    subst hwf
    obtain ⟨htok, hcnt, hauth, hport, hcu⟩ := rewriteGateway_ok_obj aid port _ g0 hG
    refine ⟨?_, ?_, ?_, ?_, ?_⟩
    · rw [countKey_writtenFields]
      exact htok
    · rw [countKey_writtenFields]
      exact hcnt
    · rw [jget_writtenFields, hauth]
      rfl
    · rw [jget_writtenFields, hport]
      rfl
    · intro cu hcu2
      rw [jget_writtenFields] at hcu2
      cases hv : jget g0 "controlUi" with
      | none =>
        rw [hv] at hcu2
        exact Option.noConfusion hcu2
      | some v0 =>
        rw [hv] at hcu2
        injection hcu2 with hcu3
        obtain ⟨cu0, rfl, hwcu⟩ := written_eq_obj_inv v0 cu hcu3
        subst hwcu
        obtain ⟨hf1, hf2⟩ := hcu cu0 hv
        constructor
        · rw [jget_writtenFields, hf1]
          rfl
        · rw [jget_writtenFields, hf2]
          rfl
  · intro ag hag
    rw [jget_writtenFields, jget_jset_ne _ _ _ _ (by decide), jget_jset_self] at hag
    injection hag with hag'
    obtain ⟨ag0, rfl, hwf⟩ := written_eq_obj_inv agents ag hag'
    subst hwf
    obtain ⟨hdf, hls⟩ := rewriteAgents_ok_obj w _ ag0 hA
    constructor
    · intro df hdf2
      rw [jget_writtenFields] at hdf2
      cases hv : jget ag0 "defaults" with
      | none =>
        rw [hv] at hdf2
        exact Option.noConfusion hdf2
      | some v0 =>
        rw [hv] at hdf2
        injection hdf2 with hdf3
        obtain ⟨df0, rfl, hwdf⟩ := written_eq_obj_inv v0 df hdf3
        subst hwdf
        rw [jget_writtenFields, hdf df0 hv]
        rfl
    · intro l ps hls2 e he eo heo
      rw [jget_writtenFields] at hls2
      cases hv : jget ag0 "list" with
      | none =>
        rw [hv] at hls2
        exact Option.noConfusion hls2
      | some v0 =>
        rw [hv] at hls2
        injection hls2 with hls3
        obtain ⟨l0, p0, rfl, hwl⟩ := written_eq_arr_inv v0 l ps hls3
        rw [← hwl, writtenList_eq_map] at he
        obtain ⟨e0, he0, rfl⟩ := List.mem_map.mp he
        obtain ⟨eo0, rfl, hweo⟩ := written_eq_obj_inv e0 eo heo
        subst hweo
        rw [jget_writtenFields, hls l0 p0 hv (.obj eo0) he0 eo0 rfl]
        rfl

@[simp] theorem run_bind {α β : Type} (x : M α) (f : α → M β) :
    x >>= f = M.bind x f := rfl

@[simp] theorem run_pure {α : Type} (a : α) :
    (Pure.pure a : M α) = (.ok a, []) := rfl

@[simp] theorem bind_ok {α β : Type} (a : α) (w : List Event) (f : α → M β) :
    M.bind (.ok a, w) f = ((f a).1, w ++ (f a).2) := rfl

@[simp] theorem bind_error {α β : Type} (e : String) (w : List Event) (f : α → M β) :
    M.bind (.error e, w) f = (.error e, w) := rfl

theorem restartAgent_run_ok (env : Env) (a : String) (r1 r2 : ExecResult)
    (h1 : env.exec (.restart (serviceName a)) = .ok r1)
    (h2 : env.exec (.isActive (serviceName a)) = .ok r2) :
    restartAgent env a =
      (.ok (), [.notify a "restarting" [], .exec (.restart (serviceName a)),
        .exec (.isActive (serviceName a)),
        .notify a (if jsTrim r2.stdout == "active" then "active" else "offline") []]) := by
  simp [restartAgent, sshExecM, notifyM, h1, h2]

theorem restartAgent_run_transport (env : Env) (a : String) (e : String)
    (h1 : env.exec (.restart (serviceName a)) = .error e) :
    restartAgent env a =
      (.error e, [.notify a "restarting" [], .exec (.restart (serviceName a))]) := by
  simp [restartAgent, sshExecM, notifyM, h1]

theorem restartAgent_first_event (env : Env) (a : String) :
    (restartAgent env a).2.head? = some (.notify a "restarting" []) := by
  simp only [restartAgent, run_bind, notifyM, bind_ok]
  simp

theorem stopAgent_run (env : Env) (a : String) (r : ExecResult)
    (h : env.exec (.stopTolerant (serviceName a)) = .ok r) :
    stopAgent env a =
      (.ok (), [.exec (.stopTolerant (serviceName a)), .notify a "stopped" []]) := by
  simp [stopAgent, sshExecM, notifyM, h]

theorem deleteAgent_run (env : Env) (a : String)
    (r1 r2 r3 r4 r5 : ExecResult)
    (h1 : env.exec (.stopTolerant (serviceName a)) = .ok r1)
    (h2 : env.exec (.disableTolerant (serviceName a)) = .ok r2)
    (h3 : env.exec (.rmF ("/etc/systemd/system/" ++ serviceName a ++ ".service")) = .ok r3)
    (h4 : env.exec .daemonReload = .ok r4)
    (h5 : env.exec (.rmRf ("/root/.openclaw-" ++ profileName a)) = .ok r5) :
    deleteAgent env a =
      (.ok (), [.exec (.stopTolerant (serviceName a)),
        .exec (.disableTolerant (serviceName a)),
        .exec (.rmF ("/etc/systemd/system/" ++ serviceName a ++ ".service")),
        .exec .daemonReload,
        .exec (.rmRf ("/root/.openclaw-" ++ profileName a))]) := by
  simp [deleteAgent, sshExecM, h1, h2, h3, h4, h5]

/-- Regardless of how the transport behaves, `deleteAgent` attempts no
backend notification: its trace holds only command events. -/
theorem deleteAgent_no_notifs (env : Env) (a : String) :
    notifs (deleteAgent env a).2 = [] := by
  simp only [deleteAgent, run_bind]
  cases h1 : env.exec (.stopTolerant (serviceName a)) <;>
    cases h2 : env.exec (.disableTolerant (serviceName a)) <;>
      cases h3 : env.exec (.rmF ("/etc/systemd/system/" ++ serviceName a ++ ".service")) <;>
        cases h4 : env.exec .daemonReload <;>
          cases h5 : env.exec (.rmRf ("/root/.openclaw-" ++ profileName a)) <;>
            simp [sshExecM, h1, h2, h3, h4, h5, notifs, notifOf]

theorem writeRequestFiles_parse_error (env : Env)
    (parse : String → Except String Json) (a : String) (port : Nat)
    (wsDir cfg : String) (pre : List FileEntry) (c : String)
    (rest : List FileEntry) (e : String)
    (hpre : ∀ f ∈ pre, f.path ≠ "config.json")
    (hw : ∀ f ∈ pre, env.writeFile (wsDir ++ "/" ++ f.path) f.content = .ok ())
    (hc : parse c = .error e) :
    writeRequestFiles env parse a port wsDir cfg
        (pre ++ { path := "config.json", content := c } :: rest) =
      (.error e, pre.map (fun f => .write (wsDir ++ "/" ++ f.path) f.content)) := by
  induction pre with
  | nil => simp [writeRequestFiles, hc, throwM]
  | cons f fs ih =>
    have hf : f.path ≠ "config.json" := hpre f (List.mem_cons_self f fs)
    have hwf := hw f (List.mem_cons_self f fs)
    have ih' := ih (fun g hg => hpre g (List.mem_cons_of_mem f hg))
      (fun g hg => hw g (List.mem_cons_of_mem f hg))
    simp only [List.cons_append, writeRequestFiles]
    simp [sshWriteFileM, hwf, hf, ih']

theorem createAgent_run_inactive (env : Env)
    (parse : String → Except String Json) (host : String)
    (req : ContainerCreateRequest) (fevs : List Event)
    (rm rd re rs ra rj : ExecResult)
    (hmk : env.exec (.mkdirP (workspaceDirOf req.agentId)) = .ok rm)
    (hfl : writeRequestFiles env parse req.agentId (agentPort req.agentId)
      (workspaceDirOf req.agentId) (configFileOf req.agentId) req.files = (.ok (), fevs))
    (hw1 : env.writeFile (stateDirOf req.agentId ++ "/.env")
      (envFileText req.envVars) = .ok ())
    (hw2 : env.writeFile (unitFileOf req.agentId)
      (serviceUnitText req.agentId (stateDirOf req.agentId) (configFileOf req.agentId)
        (serviceName req.agentId)) = .ok ())
    (hdr : env.exec .daemonReload = .ok rd)
    (hen : env.exec (.enable (serviceName req.agentId)) = .ok re)
    (hst : env.exec (.start (serviceName req.agentId)) = .ok rs)
    (hrs : rs.exitCode = 0)
    (hia : env.exec (.isActive (serviceName req.agentId)) = .ok ra)
    (hra : jsTrim ra.stdout ≠ "active")
    (hj : env.exec (.journal (serviceName req.agentId) 20) = .ok rj) :
    createAgent env parse host req =
      (.error ("Agent not running after start. Logs:\n" ++ rj.stdout ++ "\n" ++ rj.stderr),
        .exec (.mkdirP (workspaceDirOf req.agentId)) :: fevs ++
        [.write (stateDirOf req.agentId ++ "/.env") (envFileText req.envVars),
         .write (unitFileOf req.agentId)
           (serviceUnitText req.agentId (stateDirOf req.agentId)
             (configFileOf req.agentId) (serviceName req.agentId)),
         .exec .daemonReload,
         .exec (.enable (serviceName req.agentId)),
         .exec (.start (serviceName req.agentId)),
         .exec (.isActive (serviceName req.agentId)),
         .exec (.journal (serviceName req.agentId) 20),
         .notify req.agentId "offline" []]) := by
  simp only [workspaceDirOf, stateDirOf, configFileOf, unitFileOf]
    at hmk hfl hw1 hw2 ⊢
  simp [createAgent, sshExecM, sshWriteFileM, notifyM, throwM,
    hmk, hfl, hw1, hw2, hdr, hen, hst, hrs, hia, hra, hj]

theorem createAgent_run_active (env : Env)
    (parse : String → Except String Json) (host : String)
    (req : ContainerCreateRequest) (fevs : List Event)
    (rm rd re rs ra : ExecResult)
    (hmk : env.exec (.mkdirP (workspaceDirOf req.agentId)) = .ok rm)
    (hfl : writeRequestFiles env parse req.agentId (agentPort req.agentId)
      (workspaceDirOf req.agentId) (configFileOf req.agentId) req.files = (.ok (), fevs))
    (hw1 : env.writeFile (stateDirOf req.agentId ++ "/.env")
      (envFileText req.envVars) = .ok ())
    (hw2 : env.writeFile (unitFileOf req.agentId)
      (serviceUnitText req.agentId (stateDirOf req.agentId) (configFileOf req.agentId)
        (serviceName req.agentId)) = .ok ())
    (hdr : env.exec .daemonReload = .ok rd)
    (hen : env.exec (.enable (serviceName req.agentId)) = .ok re)
    (hst : env.exec (.start (serviceName req.agentId)) = .ok rs)
    (hrs : rs.exitCode = 0)
    (hia : env.exec (.isActive (serviceName req.agentId)) = .ok ra)
    (hra : jsTrim ra.stdout = "active") :
    createAgent env parse host req =
      (.ok (host ++ ":" ++ toString (agentPort req.agentId)),
        .exec (.mkdirP (workspaceDirOf req.agentId)) :: fevs ++
        [.write (stateDirOf req.agentId ++ "/.env") (envFileText req.envVars),
         .write (unitFileOf req.agentId)
           (serviceUnitText req.agentId (stateDirOf req.agentId)
             (configFileOf req.agentId) (serviceName req.agentId)),
         .exec .daemonReload,
         .exec (.enable (serviceName req.agentId)),
         .exec (.start (serviceName req.agentId)),
         .exec (.isActive (serviceName req.agentId)),
         .notify req.agentId "active"
           [("containerId", host ++ ":" ++ toString (agentPort req.agentId)),
            ("gatewayPort", toString (agentPort req.agentId)),
            ("gatewayUrl", "http://" ++ host ++ ":" ++ toString (agentPort req.agentId))]]) := by
  simp only [workspaceDirOf, stateDirOf, configFileOf, unitFileOf]
    at hmk hfl hw1 hw2 ⊢
  simp [createAgent, sshExecM, sshWriteFileM, notifyM, throwM,
    hmk, hfl, hw1, hw2, hdr, hen, hst, hrs, hia, hra]

theorem createAgent_run_parse_error (env : Env)
    (parse : String → Except String Json) (host : String)
    (req : ContainerCreateRequest) (pre : List FileEntry) (c : String)
    (rest : List FileEntry) (e : String) (rm : ExecResult)
    (hreq : req.files = pre ++ { path := "config.json", content := c } :: rest)
    (hpre : ∀ f ∈ pre, f.path ≠ "config.json")
    (hw : ∀ f ∈ pre, env.writeFile (workspaceDirOf req.agentId ++ "/" ++ f.path)
      f.content = .ok ())
    (hc : parse c = .error e)
    (hmk : env.exec (.mkdirP (workspaceDirOf req.agentId)) = .ok rm) :
    createAgent env parse host req =
      (.error e, .exec (.mkdirP (workspaceDirOf req.agentId)) ::
        pre.map (fun f => .write (workspaceDirOf req.agentId ++ "/" ++ f.path) f.content)) := by
  have hfl := writeRequestFiles_parse_error env parse req.agentId
    (agentPort req.agentId) (workspaceDirOf req.agentId) (configFileOf req.agentId)
    pre c rest e hpre hw hc
  rw [← hreq] at hfl
  simp only [workspaceDirOf, stateDirOf, configFileOf] at hmk hfl ⊢
  simp [createAgent, sshExecM, hmk, hfl]

theorem agentPort_lt : ∀ a : String, agentPort a < 19800 := by
  intro a
  have h : (jsHash a).natAbs % 1000 < 1000 := Nat.mod_lt _ (by norm_num)
  simp only [agentPort, BASE_GATEWAY_PORT]
  omega

/-! ## Host-state semantics of the issued commands

An abstract host: the set of file paths present, directories present,
running service units and enabled service units.  `applyCmd` interprets
each command `containers.ts` issues on this state (commands whose results
are only read, like `is-active` and `journalctl`, do not mutate it). -/

structure HostState where
  files : List String
  dirs : List String
  active : List String
  enabled : List String

/-- `p` is removed by `rm -rf root`: it is `root` itself or lies under it. -/
def pathUnder (root p : String) : Bool := p == root || (root ++ "/").isPrefixOf p

def applyCmd (s : HostState) : Cmd → HostState
  | .mkdirP d => { s with dirs := if s.dirs.contains d then s.dirs else d :: s.dirs }
  | .daemonReload => s
  | .enable svc => { s with enabled := if s.enabled.contains svc then s.enabled else svc :: s.enabled }
  | .start svc => { s with active := if s.active.contains svc then s.active else svc :: s.active }
  | .restart svc => { s with active := if s.active.contains svc then s.active else svc :: s.active }
  | .isActive _ => s
  | .journal _ _ => s
  | .stopTolerant svc => { s with active := s.active.filter (fun x => x != svc) }
  | .disableTolerant svc => { s with enabled := s.enabled.filter (fun x => x != svc) }
  | .rmF p => { s with files := s.files.filter (fun x => x != p) }
  | .rmRf p =>
    { s with files := s.files.filter (fun x => !pathUnder p x),
             dirs := s.dirs.filter (fun x => !pathUnder p x) }

def runCmds (s : HostState) (cs : List Cmd) : HostState := cs.foldl applyCmd s

/-- The command sequence `deleteAgent` issues, in order. -/
def deleteCmds (agentId : String) : List Cmd :=
  [.stopTolerant (serviceName agentId), .disableTolerant (serviceName agentId),
   .rmF (unitFileOf agentId), .daemonReload, .rmRf (stateDirOf agentId)]

/-- The host state after running `deleteAgent`'s command sequence. -/
def deleteHost (s : HostState) (agentId : String) : HostState :=
  runCmds s (deleteCmds agentId)

theorem filter_self_idem {α : Type} (p : α → Bool) (l : List α) :
    (l.filter p).filter p = l.filter p := by
  induction l with
  | nil => simp
  | cons a t ih => by_cases h : p a <;> simp [List.filter_cons, h, ih]

theorem filter_pair_idem {α : Type} (p q : α → Bool) (l : List α) :
    ((((l.filter q).filter p).filter q).filter p) = (l.filter q).filter p := by
  simp only [List.filter_filter]
  apply List.filter_congr
  intro a _
  cases hp : p a <;> cases hq : q a <;> simp [hp, hq]

theorem deleteHost_eq (s : HostState) (a : String) :
    deleteHost s a =
      { files := (s.files.filter (fun x => x != unitFileOf a)).filter
          (fun x => !pathUnder (stateDirOf a) x),
        dirs := s.dirs.filter (fun x => !pathUnder (stateDirOf a) x),
        active := s.active.filter (fun x => x != serviceName a),
        enabled := s.enabled.filter (fun x => x != serviceName a) } := by
  simp [deleteHost, runCmds, deleteCmds, applyCmd]

end Clawdgod

/-- C4: `deleteAgent` is total and idempotent over host state: with the
host reachable it returns success whatever the prior state (exit codes of
the tolerated commands are never inspected, so it also succeeds for a
never-created or already-deleted agent); after it runs, neither the
service-unit file nor the state directory (nor anything under it) remains;
and running the command sequence twice leaves exactly the state of running
it once. -/
theorem C4_delete_idempotent_and_total :
    (∀ (env : Clawdgod.Env) (a : String),
      (∀ c, ∃ r, env.exec c = .ok r) →
      (Clawdgod.deleteAgent env a).1 = .ok ()) ∧
    (∀ (s : Clawdgod.HostState) (a : String),
      Clawdgod.unitFileOf a ∉ (Clawdgod.deleteHost s a).files ∧
      Clawdgod.stateDirOf a ∉ (Clawdgod.deleteHost s a).dirs ∧
      (∀ f ∈ (Clawdgod.deleteHost s a).files,
        Clawdgod.pathUnder (Clawdgod.stateDirOf a) f = false) ∧
      (∀ d ∈ (Clawdgod.deleteHost s a).dirs,
        Clawdgod.pathUnder (Clawdgod.stateDirOf a) d = false)) ∧
    (∀ (s : Clawdgod.HostState) (a : String),
      Clawdgod.deleteHost (Clawdgod.deleteHost s a) a = Clawdgod.deleteHost s a) := by
  refine ⟨?_, ?_, ?_⟩
  · intro env a h
    obtain ⟨r1, h1⟩ := h (.stopTolerant (Clawdgod.serviceName a))
    obtain ⟨r2, h2⟩ := h (.disableTolerant (Clawdgod.serviceName a))
    obtain ⟨r3, h3⟩ := h (.rmF ("/etc/systemd/system/" ++ Clawdgod.serviceName a ++ ".service"))
    obtain ⟨r4, h4⟩ := h .daemonReload
    obtain ⟨r5, h5⟩ := h (.rmRf ("/root/.openclaw-" ++ Clawdgod.profileName a))
    rw [Clawdgod.deleteAgent_run env a r1 r2 r3 r4 r5 h1 h2 h3 h4 h5]
  · intro s a
    rw [Clawdgod.deleteHost_eq]
    refine ⟨?_, ?_, ?_, ?_⟩
    · intro hmem
      have h1 := (List.mem_filter.mp hmem).1
      have h2 := (List.mem_filter.mp h1).2
      simp at h2
    · intro hmem
      have h2 := (List.mem_filter.mp hmem).2
      simp [Clawdgod.pathUnder] at h2
    · intro f hf
      have h2 := (List.mem_filter.mp hf).2
      simpa using h2
    · intro d hd
      have h2 := (List.mem_filter.mp hd).2
      simpa using h2
  · intro s a
    rw [Clawdgod.deleteHost_eq, Clawdgod.deleteHost_eq]
    simp only [Clawdgod.HostState.mk.injEq]
    exact ⟨Clawdgod.filter_pair_idem _ _ _, Clawdgod.filter_self_idem _ _,
      Clawdgod.filter_self_idem _ _, Clawdgod.filter_self_idem _ _⟩

/-- The reachable-host environment used to instantiate theorems with
hypotheses: every command completes with empty output and exit code 0, and
every file write succeeds. -/
def Clawdgod.envOk : Clawdgod.Env :=
  { exec := fun _ => .ok { stdout := "", stderr := "", exitCode := 0 },
    writeFile := fun _ _ => .ok (),
    writeJson := fun _ _ => .ok () }

/-- Witness for C4 at the reachable-host environment and a concrete host
state holding the agent's unit file, state directory and service. -/
theorem C4_delete_idempotent_and_total_witness :
    (Clawdgod.deleteAgent Clawdgod.envOk "a1").1 = .ok () ∧
    "/etc/systemd/system/clawdgod-a1.service" ∉
      (Clawdgod.deleteHost
        { files := ["/etc/systemd/system/clawdgod-a1.service",
            "/root/.openclaw-agent-a1/openclaw.json"],
          dirs := ["/root/.openclaw-agent-a1", "/root/.openclaw-agent-a1/workspace"],
          active := ["clawdgod-a1"], enabled := ["clawdgod-a1"] } "a1").files ∧
    Clawdgod.deleteHost (Clawdgod.deleteHost
      { files := ["/etc/systemd/system/clawdgod-a1.service",
          "/root/.openclaw-agent-a1/openclaw.json"],
        dirs := ["/root/.openclaw-agent-a1", "/root/.openclaw-agent-a1/workspace"],
        active := ["clawdgod-a1"], enabled := ["clawdgod-a1"] } "a1") "a1" =
      Clawdgod.deleteHost
        { files := ["/etc/systemd/system/clawdgod-a1.service",
            "/root/.openclaw-agent-a1/openclaw.json"],
          dirs := ["/root/.openclaw-agent-a1", "/root/.openclaw-agent-a1/workspace"],
          active := ["clawdgod-a1"], enabled := ["clawdgod-a1"] } "a1" :=
  ⟨C4_delete_idempotent_and_total.1 Clawdgod.envOk "a1"
      (fun _ => ⟨{ stdout := "", stderr := "", exitCode := 0 }, rfl⟩),
    (C4_delete_idempotent_and_total.2.1 _ "a1").1,
    C4_delete_idempotent_and_total.2.2 _ "a1"⟩

/-- C5 is refuted: on the parsed input `{"gateway": []}` the rewriting
succeeds — in JavaScript the array is truthy, is kept by `|| {}`, and
accepts every property assignment — but `JSON.stringify` drops the named
properties of an array, so the config actually written to the host carries
the bare array as `gateway`: it contains no auth mechanism at all (no
`gateway.auth` binding, violating (b)) and no overwritten `gateway.port`
(violating (c)). -/
theorem C5_array_gateway_counterexample :
    ∃ out, Clawdgod.renderConfig "a1" 18900 "/ws"
        (.obj [("gateway", .arr [] [])]) = .ok out ∧
      Clawdgod.written out = .obj
        [("gateway", .arr [] []),
         ("agents", .obj [("defaults", .obj [("workspace", .str "/ws")])])] ∧
      Clawdgod.jget
        [("gateway", Clawdgod.Json.arr [] []),
         ("agents", .obj [("defaults", .obj [("workspace", .str "/ws")])])]
        "gateway" = some (.arr [] []) :=
  ⟨_, rfl, rfl, rfl⟩

/-- C5 (corrected): for every creation request whose `config.json` parses
as a JSON object, the config written to the host satisfies the auth and
override guarantees at every position where the written value is itself a
JSON object (equivalently, where the input field was an object, absent or
falsy): such a written `gateway` has no `token` binding left, exactly one
`auth` binding equal to `{mode: "token", token: agentId}`, and the derived
`port`; a written object `agents.defaults` has its `workspace` overwritten
to the identity's workspace directory, and every object element of a
written `agents.list` array likewise.  An input array in one of these
positions survives to the written config as the bare array —
`JSON.stringify` drops the injected properties — and then carries no auth
mechanism or overwritten value. -/
theorem C5_amended_written_config_auth_and_overrides
    (agentId : String) (port : Nat) (wsDir : String)
    (o : List (String × Clawdgod.Json)) (out : Clawdgod.Json)
    (h : Clawdgod.renderConfig agentId port wsDir (.obj o) = .ok out) :
    ∃ top, Clawdgod.written out = .obj top ∧
      (∀ g, Clawdgod.jget top "gateway" = some (.obj g) →
        Clawdgod.countKey g "token" = 0 ∧
        Clawdgod.countKey g "auth" = 1 ∧
        Clawdgod.jget g "auth" =
          some (.obj [("mode", .str "token"), ("token", .str agentId)]) ∧
        Clawdgod.jget g "port" = some (.num (Int.ofNat port))) ∧
      (∀ ag, Clawdgod.jget top "agents" = some (.obj ag) →
        (∀ df, Clawdgod.jget ag "defaults" = some (.obj df) →
          Clawdgod.jget df "workspace" = some (.str wsDir)) ∧
        (∀ l ps, Clawdgod.jget ag "list" = some (.arr l ps) →
          ∀ e ∈ l, ∀ eo, e = .obj eo →
            Clawdgod.jget eo "workspace" = some (.str wsDir))) := by
  obtain ⟨top, h1, h2, h3⟩ :=
    Clawdgod.renderConfig_written_inv agentId port wsDir o out h
  exact ⟨top, h1, fun g hg =>
    ⟨(h2 g hg).1, (h2 g hg).2.1, (h2 g hg).2.2.1, (h2 g hg).2.2.2.1⟩, h3⟩

/-- Witness for the amended C5 at a concrete request whose input config
has an extra unknown field, a `meta` field, a deprecated `gateway.token`,
a conflicting `gateway.auth`, a stale port and stale workspaces — all
relevant positions being objects. -/
theorem C5_amended_written_config_witness :
    ∃ top,
      Clawdgod.written (Clawdgod.Json.obj
        [("unknownField", .num 7),
         ("gateway", .obj
           [("port", .num 18900),
            ("controlUi", .obj
              [("allowInsecureAuth", .bool true),
               ("dangerouslyDisableDeviceAuth", .bool true)]),
            ("mode", .str "local"),
            ("bind", .str "lan"),
            ("auth", .obj [("mode", .str "token"), ("token", .str "a1")])]),
         ("agents", .obj
           [("defaults", .obj [("workspace", .str "/ws")]),
            ("list", .arr [.obj [("id", .str "main"), ("workspace", .str "/ws")]] [])])]) =
        .obj top ∧
      (∀ g, Clawdgod.jget top "gateway" = some (.obj g) →
        Clawdgod.countKey g "token" = 0 ∧
        Clawdgod.countKey g "auth" = 1 ∧
        Clawdgod.jget g "auth" =
          some (.obj [("mode", .str "token"), ("token", .str "a1")]) ∧
        Clawdgod.jget g "port" = some (.num (Int.ofNat 18900))) ∧
      (∀ ag, Clawdgod.jget top "agents" = some (.obj ag) →
        (∀ df, Clawdgod.jget ag "defaults" = some (.obj df) →
          Clawdgod.jget df "workspace" = some (.str "/ws")) ∧
        (∀ l ps, Clawdgod.jget ag "list" = some (.arr l ps) →
          ∀ e ∈ l, ∀ eo, e = .obj eo →
            Clawdgod.jget eo "workspace" = some (.str "/ws"))) :=
  C5_amended_written_config_auth_and_overrides "a1" 18900 "/ws"
    [("meta", .str "wizard"), ("unknownField", .num 7),
     ("gateway", .obj
       [("token", .str "old-token"), ("auth", .str "deprecated"),
        ("port", .num 1),
        ("controlUi", .obj [("allowInsecureAuth", .bool false)])]),
     ("agents", .obj
       [("defaults", .obj [("workspace", .str "/old")]),
        ("list", .arr [.obj [("id", .str "main"), ("workspace", .str "/old")]] [])])]
    _ rfl

/-- C3: the placement identity (`serviceName`, `profileName`, `stateDir`,
`port`) is a pure deterministic function of `agentId` — two evaluations
agree — and the derived port equals `18800 + |hash(agentId)| % 1000`, hence
always lies in `18800‥19799`. -/
theorem C3_placement_deterministic_and_port_range :
    ∀ a : String,
      Clawdgod.serviceName a = Clawdgod.serviceName a ∧
      Clawdgod.profileName a = Clawdgod.profileName a ∧
      Clawdgod.stateDirOf a = Clawdgod.stateDirOf a ∧
      Clawdgod.agentPort a = Clawdgod.agentPort a ∧
      Clawdgod.agentPort a = 18800 + (Clawdgod.jsHash a).natAbs % 1000 ∧
      18800 ≤ Clawdgod.agentPort a ∧ Clawdgod.agentPort a ≤ 19799 := by
  intro a
  refine ⟨rfl, rfl, rfl, rfl, rfl, Nat.le_add_right _ _, ?_⟩
  have := Clawdgod.agentPort_lt a
  omega

namespace Clawdgod

theorem strAppend_assoc (a b c : String) : a ++ b ++ c = a ++ (b ++ c) := by
  apply String.ext
  simp

/-- The files loop never attempts a backend notification: its trace holds
only file-write events. -/
theorem writeRequestFiles_no_notifs (env : Env)
    (parse : String → Except String Json) (a : String) (port : Nat)
    (ws cfg : String) (files : List FileEntry) :
    notifs (writeRequestFiles env parse a port ws cfg files).2 = [] := by
  induction files with
  | nil => simp [writeRequestFiles, notifs]
  | cons f rest ih =>
    simp only [writeRequestFiles, run_bind]
    by_cases hf : f.path = "config.json"
    · simp only [hf]
      cases hp : parse f.content with
      | error e => simp [throwM, notifs, hp]
      | ok j =>
        cases hr : renderConfig a port ws j with
        | error e => simp [throwM, notifs, hp, hr]
        | ok r =>
          cases hwj : env.writeJson cfg (written r) with
          | ok u =>
            simp [writeJsonM, notifs, notifOf, hp, hr, hwj]
            intro x hx
            exact List.filterMap_eq_nil_iff.mp ih x hx
          | error e => simp [writeJsonM, notifs, notifOf, hp, hr, hwj]
    · cases hw : env.writeFile (ws ++ "/" ++ f.path) f.content with
      | ok u =>
        simp [sshWriteFileM, notifs, notifOf, hf, hw]
        intro x hx
        exact List.filterMap_eq_nil_iff.mp ih x hx
      | error e => simp [sshWriteFileM, notifs, notifOf, hf, hw]

theorem createAgent_run_startfail (env : Env)
    (parse : String → Except String Json) (host : String)
    (req : ContainerCreateRequest) (fevs : List Event)
    (rm rd re rs : ExecResult)
    (hmk : env.exec (.mkdirP (workspaceDirOf req.agentId)) = .ok rm)
    (hfl : writeRequestFiles env parse req.agentId (agentPort req.agentId)
      (workspaceDirOf req.agentId) (configFileOf req.agentId) req.files = (.ok (), fevs))
    (hw1 : env.writeFile (stateDirOf req.agentId ++ "/.env")
      (envFileText req.envVars) = .ok ())
    (hw2 : env.writeFile (unitFileOf req.agentId)
      (serviceUnitText req.agentId (stateDirOf req.agentId) (configFileOf req.agentId)
        (serviceName req.agentId)) = .ok ())
    (hdr : env.exec .daemonReload = .ok rd)
    (hen : env.exec (.enable (serviceName req.agentId)) = .ok re)
    (hst : env.exec (.start (serviceName req.agentId)) = .ok rs)
    (hrs : rs.exitCode ≠ 0) :
    createAgent env parse host req =
      (.error ("Agent start failed: " ++ rs.stderr),
        .exec (.mkdirP (workspaceDirOf req.agentId)) :: fevs ++
        [.write (stateDirOf req.agentId ++ "/.env") (envFileText req.envVars),
         .write (unitFileOf req.agentId)
           (serviceUnitText req.agentId (stateDirOf req.agentId)
             (configFileOf req.agentId) (serviceName req.agentId)),
         .exec .daemonReload,
         .exec (.enable (serviceName req.agentId)),
         .exec (.start (serviceName req.agentId)),
         .notify req.agentId "offline" []]) := by
  simp only [workspaceDirOf, stateDirOf, configFileOf, unitFileOf]
    at hmk hfl hw1 hw2 ⊢
  simp [createAgent, sshExecM, sshWriteFileM, notifyM, throwM,
    hmk, hfl, hw1, hw2, hdr, hen, hst, hrs]

/-- Reachable host on which the started unit reports `active`. -/
def envUp : Env :=
  { exec := fun c =>
      match c with
      | .isActive _ => .ok { stdout := "active", stderr := "", exitCode := 0 }
      | _ => .ok { stdout := "", stderr := "", exitCode := 0 },
    writeFile := fun _ _ => .ok (),
    writeJson := fun _ _ => .ok () }

/-- Reachable host on which the started unit stays inactive and the
journal holds diagnostic lines. -/
def envInactive : Env :=
  { exec := fun c =>
      match c with
      | .isActive _ => .ok { stdout := "inactive", stderr := "", exitCode := 0 }
      | .journal _ _ =>
        .ok { stdout := "boot line 1\nboot line 2", stderr := "journal warning", exitCode := 0 }
      | _ => .ok { stdout := "", stderr := "", exitCode := 0 },
    writeFile := fun _ _ => .ok (),
    writeJson := fun _ _ => .ok () }

/-- Host whose transport rejects the restart command (connection refused):
an unreachable host during restart. -/
def envDown : Env :=
  { exec := fun c =>
      match c with
      | .restart _ => .error "connect ECONNREFUSED 203.0.113.7:22"
      | _ => .ok { stdout := "", stderr := "", exitCode := 0 },
    writeFile := fun _ _ => .ok (),
    writeJson := fun _ _ => .ok () }

/-- `JSON.parse` stub accepting exactly the empty object document. -/
def parseEmpty : String → Except String Json :=
  fun s => if s == "{}" then .ok (.obj []) else .error "Unexpected token"

/-- `JSON.parse` on malformed input: always raises. -/
def parseFail : String → Except String Json :=
  fun _ => .error "Unexpected end of JSON input"

/-- A minimal creation request with no file payloads. -/
def reqNoFiles : ContainerCreateRequest :=
  { agentId := "a1", userId := "u1", openclawVersion := "1.0",
    envVars := [("ANTHROPIC_API_KEY", "x")], files := [],
    channels := ["telegram"], enableWhatsappSidecar := false }

/-- A creation request whose `config.json` payload is malformed JSON. -/
def reqBadConfig : ContainerCreateRequest :=
  { agentId := "a1", userId := "u1", openclawVersion := "1.0",
    envVars := [("ANTHROPIC_API_KEY", "x")],
    files := [{ path := "config.json", content := "\x7b" }],
    channels := ["telegram"], enableWhatsappSidecar := false }

end Clawdgod

namespace Clawdgod

@[simp] theorem notifOf_exec (c : Cmd) : notifOf (.exec c) = none := rfl

@[simp] theorem notifOf_write (p c : String) : notifOf (.write p c) = none := rfl

@[simp] theorem notifOf_writeJson (p : String) (j : Json) :
    notifOf (.writeJson p j) = none := rfl

@[simp] theorem notifOf_notify (a s : String) (e : List (String × String)) :
    notifOf (.notify a s e) = some (a, s) := rfl

/-- A creation request carrying a personality file followed by a malformed
`config.json` payload. -/
def reqSoulBad : ContainerCreateRequest :=
  { agentId := "a1", userId := "u1", openclawVersion := "1.0",
    envVars := [("ANTHROPIC_API_KEY", "x")],
    files := [{ path := "SOUL.md", content := "# Soul" },
              { path := "config.json", content := "\x7b" }],
    channels := ["telegram"], enableWhatsappSidecar := false }

end Clawdgod

/-- C1 is refuted on the delete operation: a completed (successful) run of
`deleteAgent` sends no notification to the Status Reporter at all — in
particular no `deleted` notification. -/
theorem C1_delete_no_notification_counterexample :
    (Clawdgod.deleteAgent Clawdgod.envOk "a1").1 = .ok () ∧
    Clawdgod.notifs (Clawdgod.deleteAgent Clawdgod.envOk "a1").2 = [] :=
  ⟨rfl, rfl⟩

/-- C1 (amended): create, stop and restart each send exactly one
notification per state transition they cause (stop: `stopped`; restart:
`restarting` and then exactly one of `active`/`offline`; create: `active`
on success, `offline` on a failed or inactive start), but delete sends no
notification at all — no `deleted` state is ever reported. -/
theorem C1_amended_notifications :
    (∀ (env : Clawdgod.Env) (a : String),
      Clawdgod.notifs (Clawdgod.deleteAgent env a).2 = []) ∧
    (∀ (env : Clawdgod.Env) (a : String) (r : Clawdgod.ExecResult),
      env.exec (.stopTolerant (Clawdgod.serviceName a)) = .ok r →
      Clawdgod.notifs (Clawdgod.stopAgent env a).2 = [(a, "stopped")]) ∧
    (∀ (env : Clawdgod.Env) (a : String) (r1 r2 : Clawdgod.ExecResult),
      env.exec (.restart (Clawdgod.serviceName a)) = .ok r1 →
      env.exec (.isActive (Clawdgod.serviceName a)) = .ok r2 →
      Clawdgod.notifs (Clawdgod.restartAgent env a).2 =
        [(a, "restarting"),
         (a, if Clawdgod.jsTrim r2.stdout == "active" then "active" else "offline")]) ∧
    (∀ (env : Clawdgod.Env) (parse : String → Except String Clawdgod.Json)
        (host : String) (req : Clawdgod.ContainerCreateRequest)
        (fevs : List Clawdgod.Event) (rm rd re rs ra : Clawdgod.ExecResult),
      env.exec (.mkdirP (Clawdgod.workspaceDirOf req.agentId)) = .ok rm →
      Clawdgod.writeRequestFiles env parse req.agentId (Clawdgod.agentPort req.agentId)
        (Clawdgod.workspaceDirOf req.agentId) (Clawdgod.configFileOf req.agentId)
        req.files = (.ok (), fevs) →
      env.writeFile (Clawdgod.stateDirOf req.agentId ++ "/.env")
        (Clawdgod.envFileText req.envVars) = .ok () →
      env.writeFile (Clawdgod.unitFileOf req.agentId)
        (Clawdgod.serviceUnitText req.agentId (Clawdgod.stateDirOf req.agentId)
          (Clawdgod.configFileOf req.agentId) (Clawdgod.serviceName req.agentId)) = .ok () →
      env.exec .daemonReload = .ok rd →
      env.exec (.enable (Clawdgod.serviceName req.agentId)) = .ok re →
      env.exec (.start (Clawdgod.serviceName req.agentId)) = .ok rs →
      rs.exitCode = 0 →
      env.exec (.isActive (Clawdgod.serviceName req.agentId)) = .ok ra →
      Clawdgod.jsTrim ra.stdout = "active" →
      Clawdgod.notifs (Clawdgod.createAgent env parse host req).2 =
        [(req.agentId, "active")]) ∧
    (∀ (env : Clawdgod.Env) (parse : String → Except String Clawdgod.Json)
        (host : String) (req : Clawdgod.ContainerCreateRequest)
        (fevs : List Clawdgod.Event) (rm rd re rs ra rj : Clawdgod.ExecResult),
      env.exec (.mkdirP (Clawdgod.workspaceDirOf req.agentId)) = .ok rm →
      Clawdgod.writeRequestFiles env parse req.agentId (Clawdgod.agentPort req.agentId)
        (Clawdgod.workspaceDirOf req.agentId) (Clawdgod.configFileOf req.agentId)
        req.files = (.ok (), fevs) →
      env.writeFile (Clawdgod.stateDirOf req.agentId ++ "/.env")
        (Clawdgod.envFileText req.envVars) = .ok () →
      env.writeFile (Clawdgod.unitFileOf req.agentId)
        (Clawdgod.serviceUnitText req.agentId (Clawdgod.stateDirOf req.agentId)
          (Clawdgod.configFileOf req.agentId) (Clawdgod.serviceName req.agentId)) = .ok () →
      env.exec .daemonReload = .ok rd →
      env.exec (.enable (Clawdgod.serviceName req.agentId)) = .ok re →
      env.exec (.start (Clawdgod.serviceName req.agentId)) = .ok rs →
      rs.exitCode = 0 →
      env.exec (.isActive (Clawdgod.serviceName req.agentId)) = .ok ra →
      Clawdgod.jsTrim ra.stdout ≠ "active" →
      env.exec (.journal (Clawdgod.serviceName req.agentId) 20) = .ok rj →
      Clawdgod.notifs (Clawdgod.createAgent env parse host req).2 =
        [(req.agentId, "offline")]) ∧
    (∀ (env : Clawdgod.Env) (parse : String → Except String Clawdgod.Json)
        (host : String) (req : Clawdgod.ContainerCreateRequest)
        (fevs : List Clawdgod.Event) (rm rd re rs : Clawdgod.ExecResult),
      env.exec (.mkdirP (Clawdgod.workspaceDirOf req.agentId)) = .ok rm →
      Clawdgod.writeRequestFiles env parse req.agentId (Clawdgod.agentPort req.agentId)
        (Clawdgod.workspaceDirOf req.agentId) (Clawdgod.configFileOf req.agentId)
        req.files = (.ok (), fevs) →
      env.writeFile (Clawdgod.stateDirOf req.agentId ++ "/.env")
        (Clawdgod.envFileText req.envVars) = .ok () →
      env.writeFile (Clawdgod.unitFileOf req.agentId)
        (Clawdgod.serviceUnitText req.agentId (Clawdgod.stateDirOf req.agentId)
          (Clawdgod.configFileOf req.agentId) (Clawdgod.serviceName req.agentId)) = .ok () →
      env.exec .daemonReload = .ok rd →
      env.exec (.enable (Clawdgod.serviceName req.agentId)) = .ok re →
      env.exec (.start (Clawdgod.serviceName req.agentId)) = .ok rs →
      rs.exitCode ≠ 0 →
      Clawdgod.notifs (Clawdgod.createAgent env parse host req).2 =
        [(req.agentId, "offline")]) := by
  refine ⟨Clawdgod.deleteAgent_no_notifs, ?_, ?_, ?_, ?_, ?_⟩
  · intro env a r h
    rw [Clawdgod.stopAgent_run env a r h]
    simp [Clawdgod.notifs]
  · intro env a r1 r2 h1 h2
    rw [Clawdgod.restartAgent_run_ok env a r1 r2 h1 h2]
    simp [Clawdgod.notifs]
  · intro env parse host req fevs rm rd re rs ra hmk hfl hw1 hw2 hdr hen hst hrs hia hra
    have hn : List.filterMap Clawdgod.notifOf fevs = [] := by
      have h := Clawdgod.writeRequestFiles_no_notifs env parse req.agentId
        (Clawdgod.agentPort req.agentId) (Clawdgod.workspaceDirOf req.agentId)
        (Clawdgod.configFileOf req.agentId) req.files
      rw [hfl] at h
      exact h
    rw [Clawdgod.createAgent_run_active env parse host req fevs rm rd re rs ra
      hmk hfl hw1 hw2 hdr hen hst hrs hia hra]
    simp [Clawdgod.notifs, hn]
  · intro env parse host req fevs rm rd re rs ra rj hmk hfl hw1 hw2 hdr hen hst hrs hia hra hj
    have hn : List.filterMap Clawdgod.notifOf fevs = [] := by
      have h := Clawdgod.writeRequestFiles_no_notifs env parse req.agentId
        (Clawdgod.agentPort req.agentId) (Clawdgod.workspaceDirOf req.agentId)
        (Clawdgod.configFileOf req.agentId) req.files
      rw [hfl] at h
      exact h
    rw [Clawdgod.createAgent_run_inactive env parse host req fevs rm rd re rs ra rj
      hmk hfl hw1 hw2 hdr hen hst hrs hia hra hj]
    simp [Clawdgod.notifs, hn]
  · intro env parse host req fevs rm rd re rs hmk hfl hw1 hw2 hdr hen hst hrs
    have hn : List.filterMap Clawdgod.notifOf fevs = [] := by
      have h := Clawdgod.writeRequestFiles_no_notifs env parse req.agentId
        (Clawdgod.agentPort req.agentId) (Clawdgod.workspaceDirOf req.agentId)
        (Clawdgod.configFileOf req.agentId) req.files
      rw [hfl] at h
      exact h
    rw [Clawdgod.createAgent_run_startfail env parse host req fevs rm rd re rs
      hmk hfl hw1 hw2 hdr hen hst hrs]
    simp [Clawdgod.notifs, hn]

/-- Witness for the amended C1 at concrete runs: delete notifies nothing,
stop notifies `stopped`, restart notifies `restarting` then `active`,
create notifies `active`. -/
theorem C1_amended_notifications_witness :
    Clawdgod.notifs (Clawdgod.deleteAgent Clawdgod.envOk "a1").2 = [] ∧
    Clawdgod.notifs (Clawdgod.stopAgent Clawdgod.envOk "a1").2 = [("a1", "stopped")] ∧
    Clawdgod.notifs (Clawdgod.restartAgent Clawdgod.envUp "a1").2 =
      [("a1", "restarting"), ("a1", "active")] ∧
    Clawdgod.notifs (Clawdgod.createAgent Clawdgod.envUp Clawdgod.parseEmpty
      "203.0.113.7" Clawdgod.reqNoFiles).2 = [("a1", "active")] := by
  refine ⟨C1_amended_notifications.1 Clawdgod.envOk "a1",
    C1_amended_notifications.2.1 Clawdgod.envOk "a1" _ rfl, ?_, ?_⟩
  · have h := C1_amended_notifications.2.2.1 Clawdgod.envUp "a1"
      { stdout := "", stderr := "", exitCode := 0 }
      { stdout := "active", stderr := "", exitCode := 0 } rfl rfl
    simpa using h
  · exact C1_amended_notifications.2.2.2.1 Clawdgod.envUp Clawdgod.parseEmpty
      "203.0.113.7" Clawdgod.reqNoFiles []
      { stdout := "", stderr := "", exitCode := 0 }
      { stdout := "", stderr := "", exitCode := 0 }
      { stdout := "", stderr := "", exitCode := 0 }
      { stdout := "", stderr := "", exitCode := 0 }
      { stdout := "active", stderr := "", exitCode := 0 }
      rfl rfl rfl rfl rfl rfl rfl rfl rfl rfl

/-- C2 is refuted: on a request whose `config.json` is malformed, creation
fails — but only after the workspace `mkdir -p` command has already been
executed on the host, so a host mutation has occurred at the moment of
failure (the claim asserts no command has been executed). -/
theorem C2_mutation_before_parse_failure_counterexample :
    Clawdgod.createAgent Clawdgod.envOk Clawdgod.parseFail "203.0.113.7"
        Clawdgod.reqBadConfig =
      (.error "Unexpected end of JSON input",
       [.exec (.mkdirP "/root/.openclaw-agent-a1/workspace")]) ∧
    (Clawdgod.createAgent Clawdgod.envOk Clawdgod.parseFail "203.0.113.7"
        Clawdgod.reqBadConfig).2.length = 1 :=
  ⟨rfl, rfl⟩

/-- C2 (amended): when `config.json` is malformed, creation fails before
the config or any later file is written and before any service-manager
command beyond the directory creation runs — but the workspace `mkdir -p`
has already executed and every file listed before `config.json` has
already been written. -/
theorem C2_amended_parse_failure_aborts_after_mkdir (env : Clawdgod.Env)
    (parse : String → Except String Clawdgod.Json) (host : String)
    (req : Clawdgod.ContainerCreateRequest) (pre : List Clawdgod.FileEntry)
    (c : String) (rest : List Clawdgod.FileEntry) (e : String)
    (rm : Clawdgod.ExecResult)
    (hreq : req.files = pre ++ { path := "config.json", content := c } :: rest)
    (hpre : ∀ f ∈ pre, f.path ≠ "config.json")
    (hw : ∀ f ∈ pre, env.writeFile
      (Clawdgod.workspaceDirOf req.agentId ++ "/" ++ f.path) f.content = .ok ())
    (hc : parse c = .error e)
    (hmk : env.exec (.mkdirP (Clawdgod.workspaceDirOf req.agentId)) = .ok rm) :
    Clawdgod.createAgent env parse host req =
      (.error e, .exec (.mkdirP (Clawdgod.workspaceDirOf req.agentId)) ::
        pre.map (fun f =>
          .write (Clawdgod.workspaceDirOf req.agentId ++ "/" ++ f.path) f.content)) :=
  Clawdgod.createAgent_run_parse_error env parse host req pre c rest e rm
    hreq hpre hw hc hmk

/-- Witness for the amended C2: a request carrying `SOUL.md` and then a
malformed `config.json` fails with the directory created and `SOUL.md`
written. -/
theorem C2_amended_parse_failure_witness :
    Clawdgod.createAgent Clawdgod.envOk Clawdgod.parseFail "203.0.113.7"
        Clawdgod.reqSoulBad =
      (.error "Unexpected end of JSON input",
       [.exec (.mkdirP "/root/.openclaw-agent-a1/workspace"),
        .write "/root/.openclaw-agent-a1/workspace/SOUL.md" "# Soul"]) := by
  have h := C2_amended_parse_failure_aborts_after_mkdir Clawdgod.envOk
    Clawdgod.parseFail "203.0.113.7" Clawdgod.reqSoulBad
    [{ path := "SOUL.md", content := "# Soul" }] "\x7b" [] "Unexpected end of JSON input"
    { stdout := "", stderr := "", exitCode := 0 }
    rfl (by decide) (fun f _ => rfl) rfl rfl
  simpa using h

/-- C6: if, after the settle interval, the service manager reports the
unit inactive, `createAgent` reports `offline` to the Status Reporter and
fails with an error whose message contains the captured recent log output
(both the journal's stdout and stderr). -/
theorem C6_create_inactive_reports_offline_with_logs (env : Clawdgod.Env)
    (parse : String → Except String Clawdgod.Json) (host : String)
    (req : Clawdgod.ContainerCreateRequest) (fevs : List Clawdgod.Event)
    (rm rd re rs ra rj : Clawdgod.ExecResult)
    (hmk : env.exec (.mkdirP (Clawdgod.workspaceDirOf req.agentId)) = .ok rm)
    (hfl : Clawdgod.writeRequestFiles env parse req.agentId
      (Clawdgod.agentPort req.agentId) (Clawdgod.workspaceDirOf req.agentId)
      (Clawdgod.configFileOf req.agentId) req.files = (.ok (), fevs))
    (hw1 : env.writeFile (Clawdgod.stateDirOf req.agentId ++ "/.env")
      (Clawdgod.envFileText req.envVars) = .ok ())
    (hw2 : env.writeFile (Clawdgod.unitFileOf req.agentId)
      (Clawdgod.serviceUnitText req.agentId (Clawdgod.stateDirOf req.agentId)
        (Clawdgod.configFileOf req.agentId) (Clawdgod.serviceName req.agentId)) = .ok ())
    (hdr : env.exec .daemonReload = .ok rd)
    (hen : env.exec (.enable (Clawdgod.serviceName req.agentId)) = .ok re)
    (hst : env.exec (.start (Clawdgod.serviceName req.agentId)) = .ok rs)
    (hrs : rs.exitCode = 0)
    (hia : env.exec (.isActive (Clawdgod.serviceName req.agentId)) = .ok ra)
    (hra : Clawdgod.jsTrim ra.stdout ≠ "active")
    (hj : env.exec (.journal (Clawdgod.serviceName req.agentId) 20) = .ok rj) :
    (Clawdgod.createAgent env parse host req).1 =
      .error ("Agent not running after start. Logs:\n" ++ rj.stdout ++ "\n" ++ rj.stderr) ∧
    (∃ u v, "Agent not running after start. Logs:\n" ++ rj.stdout ++ "\n" ++ rj.stderr =
      u ++ rj.stdout ++ v) ∧
    (∃ u v, "Agent not running after start. Logs:\n" ++ rj.stdout ++ "\n" ++ rj.stderr =
      u ++ rj.stderr ++ v) ∧
    (req.agentId, "offline") ∈ Clawdgod.notifs (Clawdgod.createAgent env parse host req).2 := by
  have hrun := Clawdgod.createAgent_run_inactive env parse host req fevs rm rd re rs ra rj
    hmk hfl hw1 hw2 hdr hen hst hrs hia hra hj
  refine ⟨by rw [hrun], ?_, ?_, ?_⟩
  · exact ⟨"Agent not running after start. Logs:\n", "\n" ++ rj.stderr,
      (Clawdgod.strAppend_assoc _ "\n" rj.stderr)⟩
  · refine ⟨"Agent not running after start. Logs:\n" ++ rj.stdout ++ "\n", "", ?_⟩
    rw [String.append_empty]
  · rw [hrun]
    simp [Clawdgod.notifs]

/-- Witness for C6: a concrete run on a host whose unit stays inactive,
with concrete journal lines. -/
theorem C6_create_inactive_witness :
    (Clawdgod.createAgent Clawdgod.envInactive Clawdgod.parseEmpty "203.0.113.7"
      Clawdgod.reqNoFiles).1 =
      .error ("Agent not running after start. Logs:\n" ++ "boot line 1\nboot line 2" ++
        "\n" ++ "journal warning") ∧
    ("a1", "offline") ∈ Clawdgod.notifs (Clawdgod.createAgent Clawdgod.envInactive
      Clawdgod.parseEmpty "203.0.113.7" Clawdgod.reqNoFiles).2 := by
  have h := C6_create_inactive_reports_offline_with_logs Clawdgod.envInactive
    Clawdgod.parseEmpty "203.0.113.7" Clawdgod.reqNoFiles []
    { stdout := "", stderr := "", exitCode := 0 }
    { stdout := "", stderr := "", exitCode := 0 }
    { stdout := "", stderr := "", exitCode := 0 }
    { stdout := "", stderr := "", exitCode := 0 }
    { stdout := "inactive", stderr := "", exitCode := 0 }
    { stdout := "boot line 1\nboot line 2", stderr := "journal warning", exitCode := 0 }
    rfl rfl rfl rfl rfl rfl rfl rfl rfl (by decide) rfl
  exact ⟨h.1, h.2.2.2⟩

/-- C7 is refuted on its last conjunct: when the host is unreachable
during restart, the transport failure is surfaced and no `active` report
is issued — but no `offline` report is issued either; the only
notification attempted is the prior `restarting` one. -/
theorem C7_no_offline_report_counterexample :
    Clawdgod.restartAgent Clawdgod.envDown "a1" =
      (.error "connect ECONNREFUSED 203.0.113.7:22",
       [.notify "a1" "restarting" [], .exec (.restart "clawdgod-a1")]) ∧
    Clawdgod.notifs (Clawdgod.restartAgent Clawdgod.envDown "a1").2 =
      [("a1", "restarting")] :=
  ⟨rfl, rfl⟩

/-- C7 (amended): when the transport fails on the restart command, the
failure is surfaced to the caller and no `active` report is issued — and
no `offline` report either: the only notification of the run is the
`restarting` one sent before the command. -/
theorem C7_amended_restart_transport_failure (env : Clawdgod.Env) (a e : String)
    (h : env.exec (.restart (Clawdgod.serviceName a)) = .error e) :
    Clawdgod.restartAgent env a =
      (.error e, [.notify a "restarting" [], .exec (.restart (Clawdgod.serviceName a))]) ∧
    Clawdgod.notifs (Clawdgod.restartAgent env a).2 = [(a, "restarting")] := by
  have hrun := Clawdgod.restartAgent_run_transport env a e h
  refine ⟨hrun, ?_⟩
  rw [hrun]
  simp [Clawdgod.notifs]

/-- Witness for the amended C7 at the unreachable-host environment. -/
theorem C7_amended_restart_transport_failure_witness :
    Clawdgod.restartAgent Clawdgod.envDown "a1" =
      (.error "connect ECONNREFUSED 203.0.113.7:22",
       [.notify "a1" "restarting" [], .exec (.restart (Clawdgod.serviceName "a1"))]) ∧
    Clawdgod.notifs (Clawdgod.restartAgent Clawdgod.envDown "a1").2 =
      [("a1", "restarting")] :=
  C7_amended_restart_transport_failure Clawdgod.envDown "a1"
    "connect ECONNREFUSED 203.0.113.7:22" rfl

/-- C8: every run of `restartAgent` emits the `restarting` notification as
its very first event — strictly before the service-manager restart command
— and, when the host answers both commands, the run's trace is exactly
`restarting`, the restart command, the `is-active` query, and then exactly
one of `active` (unit active) or `offline` (otherwise). -/
theorem C8_restart_order_and_single_outcome (env : Clawdgod.Env) (a : String)
    (r1 r2 : Clawdgod.ExecResult)
    (h1 : env.exec (.restart (Clawdgod.serviceName a)) = .ok r1)
    (h2 : env.exec (.isActive (Clawdgod.serviceName a)) = .ok r2) :
    Clawdgod.restartAgent env a =
      (.ok (), [.notify a "restarting" [], .exec (.restart (Clawdgod.serviceName a)),
        .exec (.isActive (Clawdgod.serviceName a)),
        .notify a (if Clawdgod.jsTrim r2.stdout == "active" then "active" else "offline") []]) ∧
    Clawdgod.notifs (Clawdgod.restartAgent env a).2 =
      [(a, "restarting"),
       (a, if Clawdgod.jsTrim r2.stdout == "active" then "active" else "offline")] ∧
    (∀ env' : Clawdgod.Env,
      (Clawdgod.restartAgent env' a).2.head? = some (.notify a "restarting" [])) := by
  have hrun := Clawdgod.restartAgent_run_ok env a r1 r2 h1 h2
  refine ⟨hrun, ?_, fun env' => Clawdgod.restartAgent_first_event env' a⟩
  rw [hrun]
  simp [Clawdgod.notifs]

/-- Witness for C8 on a host whose unit comes back active. -/
theorem C8_restart_order_witness :
    Clawdgod.restartAgent Clawdgod.envUp "a1" =
      (.ok (), [.notify "a1" "restarting" [], .exec (.restart (Clawdgod.serviceName "a1")),
        .exec (.isActive (Clawdgod.serviceName "a1")), .notify "a1" "active" []]) ∧
    (Clawdgod.restartAgent Clawdgod.envUp "a1").2.head? =
      some (.notify "a1" "restarting" []) := by
  have h := C8_restart_order_and_single_outcome Clawdgod.envUp "a1"
    { stdout := "", stderr := "", exitCode := 0 }
    { stdout := "active", stderr := "", exitCode := 0 } rfl rfl
  exact ⟨by simpa using h.1, h.2.2 Clawdgod.envUp⟩

namespace Clawdgod

/-! ## The Remote Command Executor (`ssh.ts`) -/

/-- How the `sshExec` promise of `ssh.ts` settles: the connection emits
`error` (connection/authentication failure, `.on("error", reject)`), the
`conn.exec` callback receives an error (exec-setup failure, rejected), or
the command's stream closes with an exit code after accumulating stdout
and stderr. -/
inductive SshOutcome where
  | connectError (msg : String)
  | execSetupError (msg : String)
  | closed (stdout stderr : String) (code : Int)

/-- `sshExec`'s resolution logic: a stream close resolves with
`{stdout: stdout.trim(), stderr: stderr.trim(), exitCode: code}` whatever
the exit code; either failure mode rejects with the error, which carries
no exit code. -/
def sshExecModel : SshOutcome → Except String ExecResult
  | .connectError m => .error m
  | .execSetupError m => .error m
  | .closed out err code =>
    .ok { stdout := jsTrim out, stderr := jsTrim err, exitCode := code }

end Clawdgod

/-- C9: the executor distinguishes transport failure from command failure:
a command whose stream closes — with any exit code, nonzero included —
resolves successfully with `{stdout, stderr, exitCode}` and is never an
executor error, while a connection/authentication or exec-setup failure is
surfaced as a rejection carrying the error and no exit code (only a closed
stream ever produces an exit code). -/
theorem C9_ssh_exec_distinguishes_failures :
    (∀ (out err : String) (code : Int),
      Clawdgod.sshExecModel (.closed out err code) =
        .ok { stdout := Clawdgod.jsTrim out, stderr := Clawdgod.jsTrim err,
              exitCode := code }) ∧
    (∀ (out err : String) (code : Int) (e : String),
      Clawdgod.sshExecModel (.closed out err code) ≠ .error e) ∧
    (∀ m, Clawdgod.sshExecModel (.connectError m) = .error m) ∧
    (∀ m, Clawdgod.sshExecModel (.execSetupError m) = .error m) ∧
    (∀ (o : Clawdgod.SshOutcome) (r : Clawdgod.ExecResult),
      Clawdgod.sshExecModel o = .ok r →
      ∃ out err code, o = .closed out err code ∧ r.exitCode = code) := by
  refine ⟨fun _ _ _ => rfl, fun out err code e => by simp [Clawdgod.sshExecModel],
    fun _ => rfl, fun _ => rfl, fun o r h => ?_⟩
  cases o with
  | connectError m => exact Except.noConfusion h
  | execSetupError m => exact Except.noConfusion h
  | closed out err code =>
    cases h
    exact ⟨out, err, code, rfl, rfl⟩

/-- Witness for C9: a command that exits 7 resolves successfully with
trimmed output; only closed streams yield exit codes. -/
theorem C9_ssh_exec_witness :
    Clawdgod.sshExecModel (.closed " out \n" "err" 7) =
      .ok { stdout := "out", stderr := "err", exitCode := 7 } ∧
    (∃ out err code, Clawdgod.SshOutcome.closed "a" "b" 7 = .closed out err code ∧
      ({ stdout := "a", stderr := "b", exitCode := 7 } : Clawdgod.ExecResult).exitCode = code) := by
  constructor
  · have h := C9_ssh_exec_distinguishes_failures.1 " out \n" "err" 7
    simpa using h
  · exact C9_ssh_exec_distinguishes_failures.2.2.2.2 (.closed "a" "b" 7)
      { stdout := "a", stderr := "b", exitCode := 7 } rfl

namespace Clawdgod

/-! ## The backend config generator (`config-generator.ts`) -/

inductive ChannelType where
  | telegram
  | whatsapp
  | discord
deriving DecidableEq

inductive AIProvider where
  | anthropic
  | openai
  | google
  | openrouter
  | custom
deriving DecidableEq

/-- `WizardAnswers` from `shared/src/types.ts`.  Optional string fields
(`baseUrl`, `fullName`, …) are embedded as strings with `""` standing for
absent, matching the truthiness tests applied to them. -/
structure WizardAnswers where
  agentName : String
  setupMode : String
  channels : List ChannelType
  aiProvider : AIProvider
  modelName : String
  baseUrl : String
  enabledTools : List String
  toolApiKeys : List (String × String)
  enabledSkills : List String
  occupation : String
  topTools : List String
  helpWith : List String
  communicationStyle : String
  timezone : String
  activePeriod : String
  biggestFrustration : String
  mainGoal : String
  fullName : String
  company : String
  keyPeople : String
  recurringTasks : String
  enabledCrons : List String

def providerSlug : AIProvider → String
  | .anthropic => "anthropic"
  | .openai => "openai"
  | .google => "google"
  | .openrouter => "openrouter"
  | .custom => "custom"

def channelSlug : ChannelType → String
  | .telegram => "telegram"
  | .whatsapp => "whatsapp"
  | .discord => "discord"

def strLookup (l : List (String × String)) (k : String) : Option String :=
  match l with
  | [] => none
  | (k', v) :: rest => if k' == k then some v else strLookup rest k

def chLookup (l : List (ChannelType × List (String × String))) (ch : ChannelType) :
    Option (List (String × String)) :=
  match l with
  | [] => none
  | (c, v) :: rest => if c = ch then some v else chLookup rest ch

/-- The `envVar` of the `OPENCLAW_TOOLS` entries of
`shared/src/constants.ts` that have `requiresApiKey: true`; the remaining
tools (`computer_use`, `web_browse`, `file_ops`, `code_exec`) require no
key, and unknown keys have no tool definition. -/
def openclawToolEnvVar : String → Option String
  | "brave_search" => some "BRAVE_API_KEY"
  | "nanobanana" => some "NANOBANANA_API_KEY"
  | "tavily" => some "TAVILY_API_KEY"
  | _ => none

/-- `buildEnvBlock` from `config-generator.ts`. -/
def buildEnvBlock (answers : WizardAnswers) (decryptedApiKey : String) :
    List (String × Json) :=
  let env : List (String × Json) :=
    match answers.aiProvider with
    | .anthropic => [("ANTHROPIC_API_KEY", .str decryptedApiKey)]
    | .openai => [("OPENAI_API_KEY", .str decryptedApiKey)]
    | .google => [("GOOGLE_API_KEY", .str decryptedApiKey)]
    | .openrouter => [("OPENROUTER_API_KEY", .str decryptedApiKey)]
    | .custom =>
      if answers.baseUrl != "" then
        [("OPENAI_API_KEY", .str decryptedApiKey),
         ("OPENAI_BASE_URL", .str answers.baseUrl)]
      else
        [("OPENAI_API_KEY", .str decryptedApiKey)]
  answers.enabledTools.foldl (fun acc toolKey =>
    match openclawToolEnvVar toolKey with
    | some envVar =>
      match strLookup answers.toolApiKeys toolKey with
      | some v => if v != "" then jset acc envVar (.str v) else acc
      | none => acc
    | none => acc) env

/-- `buildChannelsBlock` from `config-generator.ts`. -/
def buildChannelsBlock (answers : WizardAnswers)
    (channelConfigs : List (ChannelType × List (String × String))) :
    List (String × Json) :=
  answers.channels.foldl (fun channels ch =>
    let cfg := (chLookup channelConfigs ch).getD []
    match ch with
    | .telegram =>
      let allowFrom : List Json :=
        match strLookup cfg "telegramUserId" with
        | some tgId => if tgId != "" then [.str "*", .str tgId] else [.str "*"]
        | none => [.str "*"]
      jset channels "telegram" (.obj
        [("dmPolicy", .str "open"),
         ("botToken", .str ((strLookup cfg "botToken").getD "")),
         ("allowFrom", .arr allowFrom []),
         ("groupPolicy", .str "allowlist"),
         ("streamMode", .str "partial")])
    | .discord =>
      jset channels "discord" (.obj
        [("botToken", .str ((strLookup cfg "botToken").getD "")),
         ("applicationId", .str ((strLookup cfg "applicationId").getD "")),
         ("dmPolicy", .str "open")])
    | .whatsapp => jset channels "whatsapp" (.obj [])) []

/-- `buildPluginEntries` from `config-generator.ts`. -/
def buildPluginEntries (answers : WizardAnswers) : List (String × Json) :=
  let entries := answers.channels.foldl
    (fun acc ch => jset acc (channelSlug ch) (.obj [("enabled", .bool true)])) []
  let entries := answers.enabledTools.foldl
    (fun acc t => jset acc t (.obj [("enabled", .bool true)])) entries
  answers.enabledSkills.foldl
    (fun acc sk => jset acc sk (.obj [("enabled", .bool true)])) entries

/-- `generateOpenClawConfig` from `config-generator.ts` (the source
serializes this value with `JSON.stringify(config, null, 2)`; the JSON
value itself is the object modelled here).  The `agentId` parameter is
accepted and unused, as in the source. -/
def generateOpenClawConfig (agentId : String) (answers : WizardAnswers)
    (channelConfigs : List (ChannelType × List (String × String)))
    (decryptedApiKey : String) : Json :=
  let modelString :=
    match answers.aiProvider with
    | .custom => answers.modelName
    | p => providerSlug p ++ "/" ++ answers.modelName
  .obj
    [("agents", .obj
       [("defaults", .obj
          [("model", .obj [("primary", .str modelString)]),
           ("workspace", .str "/home/clawdgod/.openclaw/workspace"),
           ("skipBootstrap", .bool true),
           ("maxConcurrent", .num 4),
           ("subagents", .obj [("maxConcurrent", .num 8)])]),
        ("list", .arr
          [.obj
            [("id", .str "main"),
             ("default", .bool true),
             ("workspace", .str "/home/clawdgod/.openclaw/workspace"),
             ("model", .str modelString),
             ("identity", .obj
               [("name", .str answers.agentName),
                ("theme", .str ("personal AI assistant for " ++
                  (if answers.fullName != "" then answers.fullName else "the user") ++
                  " — a " ++ answers.occupation)),
                ("emoji", .str "🤖")])]] [])]),
     ("env", .obj (buildEnvBlock answers decryptedApiKey)),
     ("tools", .obj
       [("alsoAllow", .arr (.str "group:plugins" ::
          answers.enabledTools.map (fun t => .str ("tool:" ++ t))) [])]),
     ("commands", .obj [("native", .str "auto"), ("nativeSkills", .str "auto")]),
     ("channels", .obj (buildChannelsBlock answers channelConfigs)),
     ("gateway", .obj
       [("mode", .str "local"),
        ("bind", .str "lan"),
        ("controlUi", .obj
          [("allowInsecureAuth", .bool true),
           ("dangerouslyDisableDeviceAuth", .bool true)])]),
     ("plugins", .obj [("entries", .obj (buildPluginEntries answers))])]

/-- A concrete wizard answer set for witnesses. -/
def answers0 : WizardAnswers :=
  { agentName := "Clawd", setupMode := "basic", channels := [.telegram],
    aiProvider := .anthropic, modelName := "claude-sonnet-4", baseUrl := "",
    enabledTools := [], toolApiKeys := [], enabledSkills := [],
    occupation := "engineer", topTools := [], helpWith := [],
    communicationStyle := "casual", timezone := "UTC", activePeriod := "day",
    biggestFrustration := "", mainGoal := "", fullName := "Sam", company := "",
    keyPeople := "", recurringTasks := "", enabledCrons := [] }

end Clawdgod

/-- C10 is refuted on the rendering side: on the parsed input
`{"gateway": {"controlUi": []}}` the rewriting succeeds — the array is
truthy, is kept by `|| {}`, and accepts both flag assignments in
JavaScript — but `JSON.stringify` drops the named properties of an array,
so the config actually written to the host carries the bare array as
`gateway.controlUi`: it has neither `allowInsecureAuth` nor
`dangerouslyDisableDeviceAuth`. -/
theorem C10_array_controlui_counterexample :
    ∃ out, Clawdgod.renderConfig "a1" 18900 "/ws"
        (.obj [("gateway", .obj [("controlUi", .arr [] [])])]) = .ok out ∧
      Clawdgod.written out = .obj
        [("gateway", .obj
           [("controlUi", .arr [] []),
            ("mode", .str "local"),
            ("bind", .str "lan"),
            ("port", .num 18900),
            ("auth", .obj [("mode", .str "token"), ("token", .str "a1")])]),
         ("agents", .obj [("defaults", .obj [("workspace", .str "/ws")])])] ∧
      Clawdgod.jget
        [("controlUi", Clawdgod.Json.arr [] []),
         ("mode", .str "local"),
         ("bind", .str "lan"),
         ("port", .num 18900),
         ("auth", .obj [("mode", .str "token"), ("token", .str "a1")])]
        "controlUi" = some (.arr [] []) :=
  ⟨_, rfl, rfl, rfl⟩

/-- C10 (corrected): for every creation request whose `config.json` parses
as a JSON object, wherever the written config has an object `gateway`
containing an object `controlUi`, that `controlUi` has
`allowInsecureAuth = true` and `dangerouslyDisableDeviceAuth = true` —
which covers every input whose `gateway.controlUi` is an object, absent or
falsy; but when the input `gateway.controlUi` is an array, the written
config keeps the bare array (`JSON.stringify` drops the injected flags)
and carries neither flag.  The backend config generator, by contrast,
unconditionally emits the literal gateway block with both flags true for
every input. -/
theorem C10_amended_control_ui_flags
    (agentId : String) (port : Nat) (wsDir : String)
    (o : List (String × Clawdgod.Json)) (out : Clawdgod.Json)
    (answers : Clawdgod.WizardAnswers)
    (channelConfigs : List (Clawdgod.ChannelType × List (String × String)))
    (decryptedApiKey : String)
    (h : Clawdgod.renderConfig agentId port wsDir (.obj o) = .ok out) :
    (∃ top, Clawdgod.written out = .obj top ∧
      ∀ g, Clawdgod.jget top "gateway" = some (.obj g) →
        ∀ cu, Clawdgod.jget g "controlUi" = some (.obj cu) →
          Clawdgod.jget cu "allowInsecureAuth" = some (.bool true) ∧
          Clawdgod.jget cu "dangerouslyDisableDeviceAuth" = some (.bool true)) ∧
    (∃ flds, Clawdgod.generateOpenClawConfig agentId answers channelConfigs
        decryptedApiKey = .obj flds ∧
      Clawdgod.jget flds "gateway" = some (.obj
        [("mode", .str "local"),
         ("bind", .str "lan"),
         ("controlUi", .obj
           [("allowInsecureAuth", .bool true),
            ("dangerouslyDisableDeviceAuth", .bool true)])])) := by
  obtain ⟨top, h1, h2, h3⟩ :=
    Clawdgod.renderConfig_written_inv agentId port wsDir o out h
  exact ⟨⟨top, h1, fun g hg cu hcu => (h2 g hg).2.2.2.2 cu hcu⟩, _, rfl, rfl⟩

/-- Witness for the amended C10 at a concrete request whose input config
carries an object `gateway.controlUi` with the first flag explicitly set
to false, and the concrete wizard answer set. -/
theorem C10_amended_control_ui_flags_witness :
    (∃ top,
      Clawdgod.written (Clawdgod.Json.obj
        [("gateway", .obj
           [("controlUi", .obj
              [("allowInsecureAuth", .bool true),
               ("dangerouslyDisableDeviceAuth", .bool true)]),
            ("mode", .str "local"),
            ("bind", .str "lan"),
            ("port", .num 18900),
            ("auth", .obj [("mode", .str "token"), ("token", .str "a1")])]),
         ("agents", .obj [("defaults", .obj [("workspace", .str "/ws")])])]) =
        .obj top ∧
      ∀ g, Clawdgod.jget top "gateway" = some (.obj g) →
        ∀ cu, Clawdgod.jget g "controlUi" = some (.obj cu) →
          Clawdgod.jget cu "allowInsecureAuth" = some (.bool true) ∧
          Clawdgod.jget cu "dangerouslyDisableDeviceAuth" = some (.bool true)) ∧
    (∃ flds, Clawdgod.generateOpenClawConfig "a1" Clawdgod.answers0 []
        "sk-key" = .obj flds ∧
      Clawdgod.jget flds "gateway" = some (.obj
        [("mode", .str "local"),
         ("bind", .str "lan"),
         ("controlUi", .obj
           [("allowInsecureAuth", .bool true),
            ("dangerouslyDisableDeviceAuth", .bool true)])])) :=
  C10_amended_control_ui_flags "a1" 18900 "/ws"
    [("gateway", .obj
       [("controlUi", .obj [("allowInsecureAuth", .bool false)])])]
    _ Clawdgod.answers0 [] "sk-key" rfl
